import Mathlib

/-!
# tgfx GLGpu: the OpenGL device facade

A shallow embedding of `tgfx/src/gpu/opengl/GLGpu.cpp`.

* The OpenGL driver is external to the repository.  It is modelled as a state
  (`GLState`) with one function per entry point the facade calls; every call is
  recorded in `GLState.calls`.  What the driver decides on its own (the name
  `genTextures` hands out, the fence `fenceSync` returns, whether an error is
  pending when `CheckGLError` polls) is an explicit argument of the facade
  function, so theorems quantify over all driver answers.
* Nullable pointers are `Option`; an object reached through a non-const pointer
  is returned in its state after the call.
* `int` (32 bits) and `size_t` (64 bits) are `Int` and `Nat`; the conversions
  between them that the source writes as `static_cast` are `toInt` and
  `toSizeT`, and `size_t` products wrap (`mulSizeT`).
* `Rect` carries the four `int` values that `static_cast<int>` extracts from the
  rectangle.
* Client memory is a function from byte offsets (relative to the `pixels`
  pointer) to bytes; a texture stores, per texel, the bytes transferred for it.
  The pixel store parameters the facade never touches (skip pixels, skip rows)
  are at their default 0 and are not part of the state.
-/

namespace tgfx

/-! ## Machine integers -/

/-- Largest value of the 32-bit C type `int`. -/
def INT_MAX : Int := 2147483647

/-- The conversion `static_cast<int>(v)` of a `size_t` value: `v` modulo `2^32`,
read as a signed 32-bit number. -/
def toInt (v : Nat) : Int :=
  if v % 4294967296 < 2147483648 then ((v % 4294967296 : Nat) : Int)
  else ((v % 4294967296 : Nat) : Int) - 4294967296

/-- The conversion `static_cast<size_t>(i)` of an `int`: `i` modulo `2^64`. -/
def toSizeT (i : Int) : Nat := (i % 18446744073709551616).toNat

/-- Multiplication of two `size_t` values (wraps modulo `2^64`). -/
def mulSizeT (a b : Nat) : Nat := (a * b) % 18446744073709551616

/-! ## OpenGL constants (from the OpenGL headers) -/

def GL_TEXTURE_2D : Nat := 0x0DE1
def GL_TEXTURE_MAG_FILTER : Nat := 0x2800
def GL_TEXTURE_MIN_FILTER : Nat := 0x2801
def GL_TEXTURE_WRAP_S : Nat := 0x2802
def GL_TEXTURE_WRAP_T : Nat := 0x2803
def GL_CLAMP_TO_EDGE : Nat := 0x812F
def GL_LINEAR : Nat := 0x2601
def GL_UNSIGNED_BYTE : Nat := 0x1401
def GL_UNPACK_ROW_LENGTH : Nat := 0x0CF2
def GL_UNPACK_ALIGNMENT : Nat := 0x0CF5
def GL_SYNC_GPU_COMMANDS_COMPLETE : Nat := 0x9117
def GL_TIMEOUT_IGNORED : Nat := 0xFFFFFFFFFFFFFFFF
def GL_RED : Nat := 0x1903
def GL_ALPHA : Nat := 0x1906
def GL_RGB : Nat := 0x1907
def GL_RGBA : Nat := 0x1908
def GL_LUMINANCE : Nat := 0x1909
def GL_LUMINANCE_ALPHA : Nat := 0x190A
def GL_RG : Nat := 0x8227
def GL_BGRA : Nat := 0x80E1

/-- Number of components, hence of bytes with `GL_UNSIGNED_BYTE`, of one pixel
in client memory for an OpenGL external format; `0` for anything else. -/
def formatComponents (format : Nat) : Nat :=
  if format = GL_RED ∨ format = GL_ALPHA ∨ format = GL_LUMINANCE then 1
  else if format = GL_RG ∨ format = GL_LUMINANCE_ALPHA then 2
  else if format = GL_RGB then 3
  else if format = GL_RGBA ∨ format = GL_BGRA then 4
  else 0

/-! ## The driver -/

/-- One call into the driver, with the arguments it was given.  For the calls
that return a value (`genTextures`, `fenceSync`) the last argument is what the
driver answered; for `texSubImage2D` it is the offset of the data pointer from
the start of the caller's pixel buffer. -/
inductive GLCall where
  | genTextures (n : Nat) (name : Nat)
  | bindTexture (target texture : Nat)
  | texParameteri (target pname param : Nat)
  | texImage2D (target : Nat) (level internalFormat width height border : Int)
      (format type : Nat)
  | deleteTextures (n : Nat) (name : Nat)
  | pixelStorei (pname : Nat) (param : Int)
  | texSubImage2D (target : Nat) (level x y width height : Int) (format type : Nat)
      (dataOffset : Nat)
  | fenceSync (condition flags : Nat) (sync : Nat)
  | flush
  | waitSync (sync : Nat) (flags timeout : Nat)
  | deleteSync (sync : Nat)
  deriving DecidableEq, Repr

/-- A texture object held by the driver: its size and, per texel, the bytes
stored for it. -/
structure TextureObject where
  width : Int
  height : Int
  texels : Int → Int → List Nat

/-- The driver state the facade can observe or change. -/
structure GLState where
  /-- Whether this driver implements `GL_UNPACK_ROW_LENGTH`. -/
  unpackSubimage : Bool
  /-- The texture objects in use, by name. -/
  textures : Nat → Option TextureObject
  /-- The texture name bound to each target. -/
  binding : Nat → Nat
  unpackAlignment : Nat
  unpackRowLength : Nat
  /-- The fence objects that have been created and not deleted. -/
  syncs : List Nat
  /-- Every call received so far, oldest first. -/
  calls : List GLCall

/-- A driver in its initial state: no texture, default pixel store. -/
def GLState.initial (unpackSubimage : Bool) : GLState :=
  { unpackSubimage := unpackSubimage, textures := fun _ => none, binding := fun _ => 0,
    unpackAlignment := 4, unpackRowLength := 0, syncs := [], calls := [] }

def GLState.record (gl : GLState) (c : GLCall) : GLState :=
  { gl with calls := gl.calls ++ [c] }

/-- The call `glGenTextures(1, &out)`: `name` is what the driver writes to `out`
(`0` when it has no name to give).  A non-zero name becomes in use. -/
def GLState.genTextures (gl : GLState) (name : Nat) : GLState :=
  let gl1 := gl.record (.genTextures 1 name)
  if name = 0 then gl1
  else { gl1 with textures := Function.update gl.textures name
                    (some { width := 0, height := 0, texels := fun _ _ => [] }) }

def GLState.bindTexture (gl : GLState) (target texture : Nat) : GLState :=
  { gl.record (.bindTexture target texture) with
    binding := Function.update gl.binding target texture }

def GLState.texParameteri (gl : GLState) (target pname param : Nat) : GLState :=
  gl.record (.texParameteri target pname param)

/-- The call `glTexImage2D` with a null data pointer: the texture bound to
`target` gets storage of the requested size, its contents are left unspecified
(here: whatever the texel store held). -/
def GLState.texImage2D (gl : GLState) (target : Nat)
    (level internalFormat width height border : Int) (format type : Nat) : GLState :=
  let gl1 := gl.record (.texImage2D target level internalFormat width height border format type)
  match gl.textures (gl.binding target) with
  | none => gl1
  | some tex =>
    { gl1 with textures := Function.update gl.textures (gl.binding target)
                 (some { tex with width := width, height := height }) }

/-- The call `glDeleteTextures(1, &name)`: name `0` is silently ignored; any
other name stops being in use and every target it was bound to reverts to `0`. -/
def GLState.deleteTextures (gl : GLState) (name : Nat) : GLState :=
  let gl1 := gl.record (.deleteTextures 1 name)
  if name = 0 then gl1
  else { gl1 with textures := Function.update gl.textures name none
                  binding := fun t => if gl.binding t = name then 0 else gl.binding t }

/-- The call `glPixelStorei`.  The alignment accepts 1, 2, 4 and 8; the row
length accepts any non-negative value on a driver that implements it.  A
rejected call changes nothing. -/
def GLState.pixelStorei (gl : GLState) (pname : Nat) (param : Int) : GLState :=
  let gl1 := gl.record (.pixelStorei pname param)
  if pname = GL_UNPACK_ALIGNMENT then
    if param = 1 ∨ param = 2 ∨ param = 4 ∨ param = 8 then
      { gl1 with unpackAlignment := param.toNat }
    else gl1
  else if pname = GL_UNPACK_ROW_LENGTH then
    if gl.unpackSubimage = true ∧ 0 ≤ param then { gl1 with unpackRowLength := param.toNat }
    else gl1
  else gl1

/-- Number of pixels the driver takes one source row to hold: the unpack row
length when the driver implements it and it is set, the width of the transfer
otherwise. -/
def GLState.unpackLength (gl : GLState) (width : Int) : Nat :=
  if gl.unpackSubimage = true ∧ 0 < gl.unpackRowLength then gl.unpackRowLength
  else width.toNat

/-- Distance in bytes between the starts of two consecutive source rows: the
row of `length` pixels of `groupBytes` bytes each, rounded up to the unpack
alignment. -/
def rowStride (alignment groupBytes length : Nat) : Nat :=
  alignment * ((groupBytes * length + alignment - 1) / alignment)

/-- Offset, from the data pointer, of the first byte of source row `j` of a
transfer of the given width and external format. -/
def GLState.unpackRowOffset (gl : GLState) (width : Int) (format : Nat) (j : Nat) : Nat :=
  j * rowStride gl.unpackAlignment (formatComponents format) (gl.unpackLength width)

/-- The bytes of pixel `i` of source row `j`, read from the client memory
`client` at the data pointer `offset`. -/
def GLState.unpackPixel (gl : GLState) (width : Int) (format : Nat) (client : Nat → Nat)
    (offset : Nat) (i j : Nat) : List Nat :=
  (List.range (formatComponents format)).map fun c =>
    client (offset + gl.unpackRowOffset width format j + i * formatComponents format + c)

/-- A texel store after the rectangle at `(x, y)` of the given size has been
overwritten: texel `(x + i, y + j)` holds `source i j`, any other texel is as
before. -/
def overwriteTexels (texels : Int → Int → List Nat) (x y width height : Int)
    (source : Nat → Nat → List Nat) : Int → Int → List Nat :=
  fun u v =>
    if x ≤ u ∧ u < x + width ∧ y ≤ v ∧ v < y + height then source (u - x).toNat (v - y).toNat
    else texels u v

/-- The call `glTexSubImage2D` with `GL_UNSIGNED_BYTE` data at `client + offset`.
A call whose rectangle is not inside the texture bound to `target`, or whose
format is unknown, is rejected and changes nothing; otherwise texel
`(x + i, y + j)` receives source pixel `(i, j)`. -/
def GLState.texSubImage2D (gl : GLState) (target : Nat) (level x y width height : Int)
    (format type : Nat) (client : Nat → Nat) (offset : Nat) : GLState :=
  let gl1 := gl.record (.texSubImage2D target level x y width height format type offset)
  match gl.textures (gl.binding target) with
  | none => gl1
  | some tex =>
    if level = 0 ∧ type = GL_UNSIGNED_BYTE ∧ 0 < formatComponents format ∧
        0 ≤ x ∧ 0 ≤ y ∧ 0 ≤ width ∧ 0 ≤ height ∧
        x + width ≤ tex.width ∧ y + height ≤ tex.height then
      { gl1 with textures := Function.update gl.textures (gl.binding target)
                   (some { tex with texels := overwriteTexels tex.texels x y width height
                                      (gl.unpackPixel width format client offset) }) }
    else gl1

/-- The call `glFenceSync`: `sync` is the fence the driver returns (`0` for a
null fence).  A non-null fence becomes live. -/
def GLState.fenceSync (gl : GLState) (condition flags : Nat) (sync : Nat) : GLState :=
  let gl1 := gl.record (.fenceSync condition flags sync)
  if sync = 0 then gl1 else { gl1 with syncs := sync :: gl.syncs }

def GLState.flush (gl : GLState) : GLState := gl.record .flush

def GLState.waitSync (gl : GLState) (sync : Nat) (flags timeout : Nat) : GLState :=
  gl.record (.waitSync sync flags timeout)

def GLState.deleteSync (gl : GLState) (sync : Nat) : GLState :=
  { gl.record (.deleteSync sync) with syncs := gl.syncs.filter fun s => s ≠ sync }

/-! ## Resources -/

/-- The abstract pixel format enumeration (declared in `gpu/PixelFormat.h`). -/
abbrev PixelFormat := Nat

/-- The driver enums of one pixel format (an entry of the `GLCaps` format table). -/
structure TextureFormat where
  internalFormatTexImage : Nat
  externalFormat : Nat

structure GLSampler where
  id : Nat
  target : Nat
  format : PixelFormat
  deriving DecidableEq, Repr

/-- A semaphore: `glSync` is the fence handle, `0` (null) while unset. -/
structure GLSemaphore where
  glSync : Nat
  deriving DecidableEq, Repr

/-- The rectangle of a pixel transfer, as the `int` values the facade passes on. -/
structure Rect where
  x : Int
  y : Int
  width : Int
  height : Int
  deriving DecidableEq, Repr

/-- The pooled render pass.  `address` identifies the object; the two bindings
are shared pointers, `none` when null. -/
structure GLOpsRenderPass where
  address : Nat
  renderTarget : Option Nat
  renderTargetTexture : Option Nat
  deriving DecidableEq, Repr

/-- Modelled from the spec: `GLOpsRenderPass::set` is defined outside
`GLGpu.cpp`; it "rebinds" the pass "to the given (target, texture) pair". -/
def GLOpsRenderPass.set (pass : GLOpsRenderPass) (renderTarget renderTargetTexture : Option Nat) :
    GLOpsRenderPass :=
  { pass with renderTarget := renderTarget, renderTargetTexture := renderTargetTexture }

/-- Modelled from the spec: `GLOpsRenderPass::reset` is defined outside
`GLGpu.cpp`; it resets the pass "so it is ready for the next bind-and-record
cycle". -/
def GLOpsRenderPass.reset (pass : GLOpsRenderPass) : GLOpsRenderPass :=
  { pass with renderTarget := none, renderTargetTexture := none }

/-- What `_context` gives access to: the driver (`GLFunctions::Get`), the format
table of `GLCaps` and the byte size of each pixel format
(`PixelFormatBytesPerPixel`).  The two tables are declared outside `GLGpu.cpp`
and are parameters here. -/
structure Context where
  gl : GLState
  getTextureFormat : PixelFormat → TextureFormat
  bytesPerPixel : PixelFormat → Nat

/-- Modelled from the spec: the capability table "queries the active driver once
and records supported features (row-length unpack, ...)" and is read-only
afterwards, so the flag is the driver's own. -/
def Context.unpackRowLengthSupport (context : Context) : Bool :=
  context.gl.unpackSubimage

/-- The device: its context, the pooled render pass, and a count of the calls
made to `GLOpsRenderPass::Make`. -/
structure GLGpu where
  context : Context
  opsRenderPass : Option GLOpsRenderPass
  passesMade : Nat

def GLGpu.withGL (gpu : GLGpu) (gl : GLState) : GLGpu :=
  { gpu with context := { gpu.context with gl := gl } }

/-! ## The facade -/

/-- `GLGpu::createTexture`.  `genName` is the name `genTextures` writes to
`sampler->id`; `glOk` is the result of `CheckGLError`, true when no driver error
is pending after `texImage2D`. -/
def GLGpu.createTexture (gpu : GLGpu) (genName : Nat) (glOk : Bool) (width height : Int)
    (format : PixelFormat) : Option GLSampler × GLGpu :=
  let gl := gpu.context.gl.genTextures genName
  if genName = 0 then (none, gpu.withGL gl)
  else
    let sampler : GLSampler := { id := genName, target := GL_TEXTURE_2D, format := format }
    let gl := gl.bindTexture sampler.target sampler.id
    let gl := gl.texParameteri sampler.target GL_TEXTURE_WRAP_S GL_CLAMP_TO_EDGE
    let gl := gl.texParameteri sampler.target GL_TEXTURE_WRAP_T GL_CLAMP_TO_EDGE
    let gl := gl.texParameteri sampler.target GL_TEXTURE_MIN_FILTER GL_LINEAR
    let gl := gl.texParameteri sampler.target GL_TEXTURE_MAG_FILTER GL_LINEAR
    let textureFormat := gpu.context.getTextureFormat format
    let gl := gl.texImage2D sampler.target 0 (toInt textureFormat.internalFormatTexImage) width
      height 0 textureFormat.externalFormat GL_UNSIGNED_BYTE
    if glOk = false then (none, gpu.withGL (gl.deleteTextures sampler.id))
    else (some sampler, gpu.withGL gl)

/-- `GLGpu::deleteTexture`: returns the sampler as the call leaves it. -/
def GLGpu.deleteTexture (gpu : GLGpu) (sampler : Option GLSampler) : Option GLSampler × GLGpu :=
  match sampler with
  | none => (none, gpu)
  | some glSampler =>
    (some { glSampler with id := 0 }, gpu.withGL (gpu.context.gl.deleteTextures glSampler.id))

/-- `GLGpu::writePixels`.  `pixels` is the caller's buffer, byte by byte.  For a
format of byte size 0 the source divides by zero on the row-length path and
does not return; the function is the source's for a positive byte size, and
every theorem about it on that path assumes one. -/
def GLGpu.writePixels (gpu : GLGpu) (sampler : Option GLSampler) (rect : Rect)
    (pixels : Nat → Nat) (rowBytes : Nat) : GLGpu :=
  match sampler with
  | none => gpu
  | some glSampler =>
    let gl := gpu.context.gl.bindTexture glSampler.target glSampler.id
    let format := gpu.context.getTextureFormat glSampler.format
    let bytesPerPixel := gpu.context.bytesPerPixel glSampler.format
    let gl := gl.pixelStorei GL_UNPACK_ALIGNMENT (toInt bytesPerPixel)
    let x := rect.x
    let y := rect.y
    let width := rect.width
    let height := rect.height
    if gpu.context.unpackRowLengthSupport = true then
      let gl := gl.pixelStorei GL_UNPACK_ROW_LENGTH (toInt (rowBytes / bytesPerPixel))
      let gl := gl.texSubImage2D glSampler.target 0 x y width height format.externalFormat
        GL_UNSIGNED_BYTE pixels 0
      let gl := gl.pixelStorei GL_UNPACK_ROW_LENGTH 0
      gpu.withGL gl
    else if mulSizeT (toSizeT width) bytesPerPixel = rowBytes then
      gpu.withGL (gl.texSubImage2D glSampler.target 0 x y width height format.externalFormat
        GL_UNSIGNED_BYTE pixels 0)
    else
      gpu.withGL ((List.range height.toNat).foldl (fun (gl : GLState) (row : Nat) =>
        gl.texSubImage2D glSampler.target 0 x (y + (row : Int)) width 1 format.externalFormat
          GL_UNSIGNED_BYTE pixels (mulSizeT (toSizeT (row : Int)) rowBytes)) gl)

/-- `GLGpu::insertSemaphore`.  `sync` is the fence `fenceSync` returns.  The
result is the return value, the semaphore as the call leaves it, and the device. -/
def GLGpu.insertSemaphore (gpu : GLGpu) (semaphore : Option GLSemaphore) (sync : Nat) :
    Bool × Option GLSemaphore × GLGpu :=
  match semaphore with
  | none => (false, none, gpu)
  | some glSemaphore =>
    let gl := gpu.context.gl.fenceSync GL_SYNC_GPU_COMMANDS_COMPLETE 0 sync
    if sync ≠ 0 then
      (true, some { glSemaphore with glSync := sync }, gpu.withGL gl.flush)
    else (false, some glSemaphore, gpu.withGL gl)

/-- `GLGpu::waitSemaphore`.  The semaphore is received through a pointer to
const and dereferenced at once, so it is a plain value here and is returned as
received. -/
def GLGpu.waitSemaphore (gpu : GLGpu) (semaphore : GLSemaphore) : Bool × GLSemaphore × GLGpu :=
  let glSync := semaphore.glSync
  if glSync = 0 then (false, semaphore, gpu)
  else
    let gl := gpu.context.gl.waitSync glSync 0 GL_TIMEOUT_IGNORED
    let gl := gl.deleteSync glSync
    (true, semaphore, gpu.withGL gl)

/-- `GLGpu::getOpsRenderPass`.  `made` is what `GLOpsRenderPass::Make` returns if
it is called (`none` for null).  The result is the address of the pooled pass,
`none` for a null pointer. -/
def GLGpu.getOpsRenderPass (gpu : GLGpu) (renderTarget renderTargetTexture : Option Nat)
    (made : Option GLOpsRenderPass) : Option Nat × GLGpu :=
  let gpu := if gpu.opsRenderPass = none then
      { gpu with opsRenderPass := made, passesMade := gpu.passesMade + 1 }
    else gpu
  let gpu := match gpu.opsRenderPass with
    | some pass => { gpu with opsRenderPass := some (pass.set renderTarget renderTargetTexture) }
    | none => gpu
  (gpu.opsRenderPass.map fun pass => pass.address, gpu)

/-- `GLGpu::submit`: `none` when there is no pooled pass to dereference. -/
def GLGpu.submit (gpu : GLGpu) : Option GLGpu :=
  match gpu.opsRenderPass with
  | none => none
  | some pass => some { gpu with opsRenderPass := some pass.reset }

/-- A device over a fresh driver, with nothing pooled. -/
def GLGpu.initial (unpackSubimage : Bool) (getTextureFormat : PixelFormat → TextureFormat)
    (bytesPerPixel : PixelFormat → Nat) : GLGpu :=
  { context := { gl := GLState.initial unpackSubimage, getTextureFormat := getTextureFormat,
                 bytesPerPixel := bytesPerPixel },
    opsRenderPass := none, passesMade := 0 }

/-- One use of the render pass pool by the engine: a `getOpsRenderPass` call with
its arguments and the answer `GLOpsRenderPass::Make` would give, or a `submit`. -/
inductive PassRequest where
  | getOpsRenderPass (renderTarget renderTargetTexture : Option Nat)
      (made : Option GLOpsRenderPass)
  | submit

/-- Serves a sequence of pool requests in order and collects the pointers the
`getOpsRenderPass` calls return, oldest first; `none` when a `submit` finds no
pooled pass. -/
def GLGpu.runPassRequests : GLGpu → List PassRequest → Option (List (Option Nat) × GLGpu)
  | gpu, [] => some ([], gpu)
  | gpu, .getOpsRenderPass renderTarget renderTargetTexture made :: rest =>
    match (gpu.getOpsRenderPass renderTarget renderTargetTexture made).2.runPassRequests rest with
    | none => none
    | some out =>
      some ((gpu.getOpsRenderPass renderTarget renderTargetTexture made).1 :: out.1, out.2)
  | gpu, .submit :: rest =>
    match gpu.submit with
    | none => none
    | some gpu1 => gpu1.runPassRequests rest

/-- Pixel number `k` of a tightly packed buffer of pixels of `bytesPerPixel`
bytes each. -/
def sourcePixel (pixels : Nat → Nat) (bytesPerPixel k : Nat) : List Nat :=
  (List.range bytesPerPixel).map fun c => pixels (k * bytesPerPixel + c)

/-- The same device over a driver with or without `GL_UNPACK_ROW_LENGTH`. -/
def GLGpu.withUnpackSubimage (gpu : GLGpu) (unpackSubimage : Bool) : GLGpu :=
  gpu.withGL { gpu.context.gl with unpackSubimage := unpackSubimage }

/-- The driver as `writePixels` has set it up when, on a driver with
`GL_UNPACK_ROW_LENGTH`, it issues its single transfer: texture bound, alignment
and row length stored. -/
def GLGpu.rowLengthTransferState (gpu : GLGpu) (glSampler : GLSampler) (rowBytes : Nat) : GLState :=
  ((gpu.context.gl.bindTexture glSampler.target glSampler.id).pixelStorei GL_UNPACK_ALIGNMENT
    (toInt (gpu.context.bytesPerPixel glSampler.format))).pixelStorei GL_UNPACK_ROW_LENGTH
      (toInt (rowBytes / gpu.context.bytesPerPixel glSampler.format))

/-- The scenario device: over a fresh driver, with a four-byte `GL_RGBA` format,
after creating a 64 by 64 texture for which the driver handed out name 1. -/
def scenarioGpu (unpackSubimage : Bool) : GLGpu :=
  ((GLGpu.initial unpackSubimage (fun _ => ⟨GL_RGBA, GL_RGBA⟩) (fun _ => 4)).createTexture
    1 true 64 64 0).2

/-- A buffer of solid red pixels: bytes 255, 0, 0, 255 repeated. -/
def solidRed (k : Nat) : Nat := if k % 4 = 0 ∨ k % 4 = 3 then 255 else 0

/-- Pixel `i` of row `j` of a buffer whose rows start `rowBytes` bytes apart. -/
def paddedPixel (pixels : Nat → Nat) (bytesPerPixel rowBytes i j : Nat) : List Nat :=
  (List.range bytesPerPixel).map fun c => pixels (j * rowBytes + i * bytesPerPixel + c)

/-- The driver as `writePixels` has set it up when, on a driver without
`GL_UNPACK_ROW_LENGTH`, it issues its transfers: texture bound, alignment
stored. -/
def GLGpu.fallbackTransferState (gpu : GLGpu) (glSampler : GLSampler) : GLState :=
  (gpu.context.gl.bindTexture glSampler.target glSampler.id).pixelStorei GL_UNPACK_ALIGNMENT
    (toInt (gpu.context.bytesPerPixel glSampler.format))

/-- A device with a one-byte `GL_RED` format over a driver with
`GL_UNPACK_ROW_LENGTH` or without, after creating a texture 1 wide and 2 high
for which the driver handed out name 1. -/
def byteGpu (unpackSubimage : Bool) : GLGpu :=
  ((GLGpu.initial unpackSubimage (fun _ => ⟨GL_RED, GL_RED⟩) (fun _ => 1)).createTexture
    1 true 1 2 0).2

/-- A buffer that is 0 everywhere except for a 9 at offset `2^32 + 1`. -/
def markedBuffer (k : Nat) : Nat := if k = 4294967297 then 9 else 0

/-! ## Semaphores -/

/-- C6: semaphore operations reject unusable semaphores without side effects.
`insertSemaphore` on a null semaphore returns false and leaves the device, hence
the driver and its call record, untouched.  On a non-null semaphore for which the
driver returns a null fence it returns false, leaves the semaphore as it was and
issues the `fenceSync` call only, so no flush.  `waitSemaphore` on a semaphore
whose handle is unset returns false and leaves device and semaphore untouched,
so it issues neither a wait nor a delete. -/
theorem semaphore_rejects_unusable (gpu : GLGpu) (semaphore : GLSemaphore) (sync : Nat) :
    gpu.insertSemaphore none sync = (false, none, gpu) ∧
    ((gpu.insertSemaphore (some semaphore) 0).1 = false ∧
      (gpu.insertSemaphore (some semaphore) 0).2.1 = some semaphore ∧
      (gpu.insertSemaphore (some semaphore) 0).2.2.context.gl.calls =
        gpu.context.gl.calls ++ [GLCall.fenceSync GL_SYNC_GPU_COMMANDS_COMPLETE 0 0] ∧
      GLCall.flush ∉ [GLCall.fenceSync GL_SYNC_GPU_COMMANDS_COMPLETE 0 0]) ∧
    (semaphore.glSync = 0 → gpu.waitSemaphore semaphore = (false, semaphore, gpu)) := by
  refine ⟨rfl, ⟨?_, ?_, ?_, ?_⟩, ?_⟩
  · simp [GLGpu.insertSemaphore]
  · simp [GLGpu.insertSemaphore]
  · simp [GLGpu.insertSemaphore, GLGpu.withGL, GLState.fenceSync, GLState.record]
  · simp
  · intro h
    simp [GLGpu.waitSemaphore, h]

/-- The unset-handle case of C6 on a fresh device and a fresh semaphore. -/
theorem semaphore_rejects_unusable_witness :
    (GLGpu.initial true (fun _ => ⟨0, 0⟩) (fun _ => 4)).waitSemaphore ⟨0⟩ =
      (false, ⟨0⟩, GLGpu.initial true (fun _ => ⟨0, 0⟩) (fun _ => 4)) :=
  (semaphore_rejects_unusable (GLGpu.initial true (fun _ => ⟨0, 0⟩) (fun _ => 4)) ⟨0⟩ 0).2.2 rfl

/-- C7: `insertSemaphore` returns true exactly when the semaphore is non-null and
the driver returns a non-null fence.  In that case the semaphore holds that
fence, the fence is live in the driver, and the calls issued are the
`fenceSync` followed by one `flush`, in this order and nothing else. -/
theorem insertSemaphore_success (gpu : GLGpu) (semaphore : Option GLSemaphore) (sync : Nat) :
    ((gpu.insertSemaphore semaphore sync).1 = true ↔ semaphore ≠ none ∧ sync ≠ 0) ∧
    ((gpu.insertSemaphore semaphore sync).1 = true →
      (∃ s, (gpu.insertSemaphore semaphore sync).2.1 = some s ∧ s.glSync = sync) ∧
      sync ∈ (gpu.insertSemaphore semaphore sync).2.2.context.gl.syncs ∧
      (gpu.insertSemaphore semaphore sync).2.2.context.gl.calls =
        gpu.context.gl.calls ++
          [GLCall.fenceSync GL_SYNC_GPU_COMMANDS_COMPLETE 0 sync, GLCall.flush]) := by
  cases semaphore with
  | none => simp [GLGpu.insertSemaphore]
  | some s =>
    by_cases h : sync = 0
    · simp [GLGpu.insertSemaphore, h]
    · simp [GLGpu.insertSemaphore, h, GLGpu.withGL, GLState.fenceSync, GLState.record,
        GLState.flush]

/-- C7 on a fresh device: the driver returns fence 7. -/
theorem insertSemaphore_success_witness :
    ((GLGpu.initial true (fun _ => ⟨0, 0⟩) (fun _ => 4)).insertSemaphore (some ⟨0⟩) 7).1 = true ∧
    ((GLGpu.initial true (fun _ => ⟨0, 0⟩) (fun _ => 4)).insertSemaphore
        (some ⟨0⟩) 7).2.2.context.gl.calls =
      [] ++ [GLCall.fenceSync GL_SYNC_GPU_COMMANDS_COMPLETE 0 7, GLCall.flush] :=
  ⟨rfl, ((insertSemaphore_success (GLGpu.initial true (fun _ => ⟨0, 0⟩) (fun _ => 4))
    (some ⟨0⟩) 7).2 rfl).2.2⟩

/-- C1, as stated, fails: on a fresh device, insert a fence (the driver returns
fence 7) and wait.  Both calls return true, yet the semaphore still holds 7
after the wait, and a further wait on it returns true again. -/
theorem waitSemaphore_keeps_handle :
    ((GLGpu.initial true (fun _ => ⟨0, 0⟩) (fun _ => 4)).insertSemaphore (some ⟨0⟩) 7).1 = true ∧
    ((GLGpu.initial true (fun _ => ⟨0, 0⟩) (fun _ => 4)).insertSemaphore (some ⟨0⟩) 7).2.1
      = some ⟨7⟩ ∧
    ((((GLGpu.initial true (fun _ => ⟨0, 0⟩) (fun _ => 4)).insertSemaphore
        (some ⟨0⟩) 7).2.2).waitSemaphore ⟨7⟩).1 = true ∧
    ((((GLGpu.initial true (fun _ => ⟨0, 0⟩) (fun _ => 4)).insertSemaphore
        (some ⟨0⟩) 7).2.2).waitSemaphore ⟨7⟩).2.1.glSync = 7 ∧
    ((((((GLGpu.initial true (fun _ => ⟨0, 0⟩) (fun _ => 4)).insertSemaphore
        (some ⟨0⟩) 7).2.2).waitSemaphore ⟨7⟩).2.2).waitSemaphore
      ((((GLGpu.initial true (fun _ => ⟨0, 0⟩) (fun _ => 4)).insertSemaphore
        (some ⟨0⟩) 7).2.2).waitSemaphore ⟨7⟩).2.1).1 = true := by
  refine ⟨rfl, rfl, rfl, rfl, rfl⟩

/-- C1, amended: after an `insertSemaphore` that returned true, the immediately
following `waitSemaphore` returns true, issues `waitSync` and then `deleteSync`
on the stored fence and nothing else, after which that fence is no longer live
in the driver; the semaphore object itself is left as it was, still holding the
value of the released fence. -/
theorem waitSemaphore_after_insert (gpu : GLGpu) (semaphore : GLSemaphore) (sync : Nat)
    (s : GLSemaphore)
    (hins : (gpu.insertSemaphore (some semaphore) sync).1 = true)
    (hs : (gpu.insertSemaphore (some semaphore) sync).2.1 = some s) :
    ((gpu.insertSemaphore (some semaphore) sync).2.2.waitSemaphore s).1 = true ∧
    ((gpu.insertSemaphore (some semaphore) sync).2.2.waitSemaphore s).2.1 = s ∧
    s.glSync = sync ∧
    ((gpu.insertSemaphore (some semaphore) sync).2.2.waitSemaphore s).2.2.context.gl.calls =
      (gpu.insertSemaphore (some semaphore) sync).2.2.context.gl.calls ++
        [GLCall.waitSync sync 0 GL_TIMEOUT_IGNORED, GLCall.deleteSync sync] ∧
    sync ∈ (gpu.insertSemaphore (some semaphore) sync).2.2.context.gl.syncs ∧
    sync ∉ ((gpu.insertSemaphore (some semaphore) sync).2.2.waitSemaphore s).2.2.context.gl.syncs := by
  by_cases h : sync = 0
  · simp [GLGpu.insertSemaphore, h] at hins
  · simp only [GLGpu.insertSemaphore, h, ne_eq, not_false_eq_true, if_true, Option.some.injEq] at hs
    subst hs
    simp [GLGpu.insertSemaphore, GLGpu.waitSemaphore, h, GLGpu.withGL, GLState.fenceSync,
      GLState.record, GLState.flush, GLState.waitSync, GLState.deleteSync]

/-- The amended C1 on a fresh device whose driver returns fence 7. -/
theorem waitSemaphore_after_insert_witness :
    ((GLGpu.initial true (fun _ => ⟨0, 0⟩) (fun _ => 4)).insertSemaphore (some ⟨0⟩) 7).1 = true ∧
    (((GLGpu.initial true (fun _ => ⟨0, 0⟩) (fun _ => 4)).insertSemaphore
        (some ⟨0⟩) 7).2.2.waitSemaphore ⟨7⟩).1 = true ∧
    7 ∉ (((GLGpu.initial true (fun _ => ⟨0, 0⟩) (fun _ => 4)).insertSemaphore
        (some ⟨0⟩) 7).2.2.waitSemaphore ⟨7⟩).2.2.context.gl.syncs :=
  ⟨rfl,
   (waitSemaphore_after_insert (GLGpu.initial true (fun _ => ⟨0, 0⟩) (fun _ => 4)) ⟨0⟩ 7 ⟨7⟩
      rfl rfl).1,
   (waitSemaphore_after_insert (GLGpu.initial true (fun _ => ⟨0, 0⟩) (fun _ => 4)) ⟨0⟩ 7 ⟨7⟩
      rfl rfl).2.2.2.2.2⟩

/-! ## Textures: creation and deletion -/

/-- C8: `deleteTexture` on a null resource changes nothing and issues no call.
On a non-null resource it issues `deleteTextures` on the resource's handle, after
which a non-zero handle is no longer in use in the driver, and returns the
resource with handle 0.  A second `deleteTexture` on that zeroed resource leaves
the resource as it is and leaves the driver as the first call left it, apart
from recording the ignored `deleteTextures` call on name 0: the textures in use,
the bindings, the pixel store and the fences are the same. -/
theorem deleteTexture_twice (gpu : GLGpu) (sampler : GLSampler) :
    gpu.deleteTexture none = (none, gpu) ∧
    ((gpu.deleteTexture (some sampler)).1 = some { sampler with id := 0 } ∧
      (gpu.deleteTexture (some sampler)).2.context.gl.calls =
        gpu.context.gl.calls ++ [GLCall.deleteTextures 1 sampler.id] ∧
      (sampler.id ≠ 0 → (gpu.deleteTexture (some sampler)).2.context.gl.textures sampler.id = none)) ∧
    (((gpu.deleteTexture (some sampler)).2.deleteTexture (gpu.deleteTexture (some sampler)).1).1 =
        (gpu.deleteTexture (some sampler)).1 ∧
      ((gpu.deleteTexture (some sampler)).2.deleteTexture (gpu.deleteTexture (some sampler)).1).2 =
        (gpu.deleteTexture (some sampler)).2.withGL
          { (gpu.deleteTexture (some sampler)).2.context.gl with
            calls := (gpu.deleteTexture (some sampler)).2.context.gl.calls ++
              [GLCall.deleteTextures 1 0] }) := by
  refine ⟨rfl, ⟨rfl, ?_, ?_⟩, rfl, ?_⟩
  · by_cases h : sampler.id = 0 <;>
      simp [GLGpu.deleteTexture, GLGpu.withGL, GLState.deleteTextures, GLState.record, h]
  · intro h
    simp [GLGpu.deleteTexture, GLGpu.withGL, GLState.deleteTextures, GLState.record, h]
  · simp [GLGpu.deleteTexture, GLGpu.withGL, GLState.deleteTextures, GLState.record]

/-- C8 on a device holding texture 3: after the first deletion name 3 is free. -/
theorem deleteTexture_twice_witness :
    (((GLGpu.initial true (fun _ => ⟨0, 0⟩) (fun _ => 4)).createTexture 3 true 8 8 0).2.deleteTexture
      (some ⟨3, GL_TEXTURE_2D, 0⟩)).2.context.gl.textures 3 = none :=
  (deleteTexture_twice ((GLGpu.initial true (fun _ => ⟨0, 0⟩) (fun _ => 4)).createTexture
    3 true 8 8 0).2 ⟨3, GL_TEXTURE_2D, 0⟩).2.1.2.2 (by decide)

/-- C3: `createTexture` lets no partial resource escape.  A returned resource has
the requested format, the 2D texture target and the non-zero handle the driver
generated.  When the driver yields handle 0 the call returns null.  When the
driver reports an error after storage allocation the call returns null, its last
driver call is `deleteTextures` on the generated handle, and that handle is no
longer in use. -/
theorem createTexture_no_escape (gpu : GLGpu) (genName : Nat) (glOk : Bool) (width height : Int)
    (format : PixelFormat) :
    (∀ s, (gpu.createTexture genName glOk width height format).1 = some s →
      s.format = format ∧ s.target = GL_TEXTURE_2D ∧ s.id ≠ 0 ∧ s.id = genName) ∧
    (genName = 0 → (gpu.createTexture genName glOk width height format).1 = none) ∧
    (genName ≠ 0 → glOk = false →
      (gpu.createTexture genName glOk width height format).1 = none ∧
      (∃ earlier, (gpu.createTexture genName glOk width height format).2.context.gl.calls =
        earlier ++ [GLCall.deleteTextures 1 genName]) ∧
      (gpu.createTexture genName glOk width height format).2.context.gl.textures genName = none) := by
  refine ⟨?_, ?_, ?_⟩
  · intro s hs
    by_cases h0 : genName = 0
    · simp [GLGpu.createTexture, h0] at hs
    · cases glOk with
      | false => simp [GLGpu.createTexture, h0] at hs
      | true =>
        simp [GLGpu.createTexture, h0] at hs
        subst hs
        exact ⟨rfl, rfl, h0, rfl⟩
  · intro h0
    simp [GLGpu.createTexture, h0]
  · intro h0 hok
    refine ⟨by simp [GLGpu.createTexture, h0, hok], ?_, ?_⟩
    · simp only [GLGpu.createTexture, h0, hok, if_false, if_true, GLGpu.withGL,
        GLState.deleteTextures, GLState.record]
      exact ⟨_, rfl⟩
    · simp [GLGpu.createTexture, h0, hok, GLGpu.withGL, GLState.deleteTextures, GLState.record]

/-- C3 on a fresh device: the driver hands out name 5 and then reports an error. -/
theorem createTexture_no_escape_witness :
    ((GLGpu.initial true (fun _ => ⟨0, 0⟩) (fun _ => 4)).createTexture 5 false 16 16 0).1 = none ∧
    ((GLGpu.initial true (fun _ => ⟨0, 0⟩) (fun _ => 4)).createTexture
      5 false 16 16 0).2.context.gl.textures 5 = none :=
  ⟨((createTexture_no_escape (GLGpu.initial true (fun _ => ⟨0, 0⟩) (fun _ => 4)) 5 false 16 16
      0).2.2 (by decide) rfl).1,
   ((createTexture_no_escape (GLGpu.initial true (fun _ => ⟨0, 0⟩) (fun _ => 4)) 5 false 16 16
      0).2.2 (by decide) rfl).2.2⟩

/-- C2, as stated, fails: with width 0 and height 0, a driver that hands out
name 1 and reports no error makes `createTexture` return a resource, and name 1
stays in use. -/
theorem createTexture_accepts_empty_size :
    ((GLGpu.initial true (fun _ => ⟨0, 0⟩) (fun _ => 4)).createTexture 1 true 0 0 0).1 =
      some ⟨1, GL_TEXTURE_2D, 0⟩ ∧
    (((GLGpu.initial true (fun _ => ⟨0, 0⟩) (fun _ => 4)).createTexture
      1 true 0 0 0).2.context.gl.textures 1).isSome = true := by
  refine ⟨rfl, ?_⟩
  simp [GLGpu.createTexture, GLGpu.initial, GLState.initial, GLGpu.withGL, GLState.genTextures,
    GLState.bindTexture, GLState.texParameteri, GLState.texImage2D, GLState.record]

/-- C2, amended: `createTexture` does not look at width and height itself.  For
every width and height it returns null exactly when the driver yields handle 0
or reports an error after storage allocation; and whenever it returns null, the
handle it generated is not in use on return, and, the driver having handed out a
name that was not in use, the textures in use are exactly those in use before
the call. -/
theorem createTexture_failure_releases (gpu : GLGpu) (genName : Nat) (glOk : Bool)
    (width height : Int) (format : PixelFormat)
    (hfresh : genName ≠ 0 → gpu.context.gl.textures genName = none) :
    ((gpu.createTexture genName glOk width height format).1 = none ↔
      genName = 0 ∨ glOk = false) ∧
    ((gpu.createTexture genName glOk width height format).1 = none →
      (genName ≠ 0 →
        (gpu.createTexture genName glOk width height format).2.context.gl.textures genName = none) ∧
      (gpu.createTexture genName glOk width height format).2.context.gl.textures =
        gpu.context.gl.textures) := by
  by_cases h0 : genName = 0
  · simp [GLGpu.createTexture, h0, GLGpu.withGL, GLState.genTextures, GLState.record]
  · cases glOk with
    | true => simp [GLGpu.createTexture, h0]
    | false =>
      simp only [GLGpu.createTexture, h0, if_false, if_true, true_and, or_true, ne_eq,
        not_false_eq_true, forall_const, true_implies, GLGpu.withGL, GLState.deleteTextures,
        GLState.record, Function.update_same]
      funext n
      by_cases hn : n = genName
      · subst hn
        simp [hfresh h0]
      · simp [Function.update_noteq hn, GLState.texImage2D, GLState.texParameteri,
          GLState.bindTexture, GLState.genTextures, GLState.record, h0]

/-- The amended C2 on a fresh device: width -1, the driver hands out name 1 and
reports the error. -/
theorem createTexture_failure_releases_witness :
    ((GLGpu.initial true (fun _ => ⟨0, 0⟩) (fun _ => 4)).createTexture 1 false (-1) 4 0).1 = none ∧
    ((GLGpu.initial true (fun _ => ⟨0, 0⟩) (fun _ => 4)).createTexture
      1 false (-1) 4 0).2.context.gl.textures =
      (GLGpu.initial true (fun _ => ⟨0, 0⟩) (fun _ => 4)).context.gl.textures :=
  ⟨rfl, ((createTexture_failure_releases (GLGpu.initial true (fun _ => ⟨0, 0⟩) (fun _ => 4)) 1
    false (-1) 4 0 (fun _ => rfl)).2 rfl).2⟩

/-! ## The render pass pool -/

theorem getOpsRenderPass_cached (gpu : GLGpu) (rt tex : Option Nat)
    (made : Option GLOpsRenderPass) (p : GLOpsRenderPass) (hp : gpu.opsRenderPass = some p) :
    gpu.getOpsRenderPass rt tex made =
      (some p.address, { gpu with opsRenderPass := some (p.set rt tex) }) := by
  simp [GLGpu.getOpsRenderPass, hp, GLOpsRenderPass.set]

theorem getOpsRenderPass_empty (gpu : GLGpu) (rt tex : Option Nat)
    (made : Option GLOpsRenderPass) (hp : gpu.opsRenderPass = none) :
    gpu.getOpsRenderPass rt tex made =
      (made.map fun q => q.address,
        { gpu with opsRenderPass := made.map fun q => q.set rt tex,
                   passesMade := gpu.passesMade + 1 }) := by
  cases made <;> simp [GLGpu.getOpsRenderPass, hp, GLOpsRenderPass.set]

/-- Once a pass is pooled, every later request returns its address. -/
theorem runPassRequests_cached (reqs : List PassRequest) :
    ∀ (gpu : GLGpu) (p : GLOpsRenderPass) (out : List (Option Nat) × GLGpu),
      gpu.opsRenderPass = some p → gpu.runPassRequests reqs = some out →
      ∀ r ∈ out.1, r = some p.address := by
  induction reqs with
  | nil =>
    intro gpu p out _ hrun
    simp [GLGpu.runPassRequests] at hrun
    subst hrun
    simp
  | cons req rest ih =>
    intro gpu p out hp hrun
    cases req with
    | getOpsRenderPass rt tex made =>
      simp only [GLGpu.runPassRequests, getOpsRenderPass_cached gpu rt tex made p hp] at hrun
      split at hrun
      · exact absurd hrun (by simp)
      · rename_i out1 hout1
        simp only [Option.some.injEq] at hrun
        subst hrun
        intro r hr
        rcases List.mem_cons.mp hr with h | h
        · exact h
        · exact ih _ (p.set rt tex) out1 rfl hout1 r h
    | submit =>
      simp only [GLGpu.runPassRequests, GLGpu.submit, hp] at hrun
      exact ih _ p.reset out rfl hrun

/-- All non-null pointers returned along a run are the same address. -/
theorem runPassRequests_same (reqs : List PassRequest) :
    ∀ (gpu : GLGpu) (out : List (Option Nat) × GLGpu),
      gpu.runPassRequests reqs = some out →
      ∀ a b, some a ∈ out.1 → some b ∈ out.1 → a = b := by
  induction reqs with
  | nil =>
    intro gpu out hrun
    simp [GLGpu.runPassRequests] at hrun
    subst hrun
    simp
  | cons req rest ih =>
    intro gpu out hrun
    cases req with
    | getOpsRenderPass rt tex made =>
      cases hc : gpu.opsRenderPass with
      | some p =>
        intro a b ha hb
        have h1 := runPassRequests_cached _ gpu p out hc hrun _ ha
        have h2 := runPassRequests_cached _ gpu p out hc hrun _ hb
        simp only [Option.some.injEq] at h1 h2
        rw [h1, h2]
      | none =>
        simp only [GLGpu.runPassRequests, getOpsRenderPass_empty gpu rt tex made hc] at hrun
        split at hrun
        · exact absurd hrun (by simp)
        · rename_i out1 hout1
          simp only [Option.some.injEq] at hrun
          subst hrun
          cases made with
          | none =>
            intro a b ha hb
            simp only [Option.map_none', List.mem_cons] at ha hb
            rcases ha with ha | ha
            · exact absurd ha (by simp)
            rcases hb with hb | hb
            · exact absurd hb (by simp)
            exact ih _ out1 hout1 a b ha hb
          | some q =>
            have hall := runPassRequests_cached rest _ (q.set rt tex) out1 rfl hout1
            intro a b ha hb
            have ha1 : some a = some q.address := by
              rcases List.mem_cons.mp ha with h | h
              · simpa using h
              · simpa [GLOpsRenderPass.set] using hall _ h
            have hb1 : some b = some q.address := by
              rcases List.mem_cons.mp hb with h | h
              · simpa using h
              · simpa [GLOpsRenderPass.set] using hall _ h
            simp only [Option.some.injEq] at ha1 hb1
            rw [ha1, hb1]
    | submit =>
      simp only [GLGpu.runPassRequests] at hrun
      split at hrun
      · exact absurd hrun (by simp)
      · exact ih _ out hrun

/-- C9: `getOpsRenderPass` pools one render pass per device.
`GLOpsRenderPass::Make` is called exactly when no pass is pooled.  The pointer
returned is the address of the pass pooled after the call; when a pass was pooled
before the call it is the address of that same pass.  A non-null result points to
the pooled pass, which is then bound to the pair given to this call.  The result
is null only when nothing was pooled and `Make` returned null.  Along any run of
`getOpsRenderPass` and `submit` calls on the device, all non-null results are
the same address. -/
theorem getOpsRenderPass_pools_one (gpu : GLGpu) (rt tex : Option Nat)
    (made : Option GLOpsRenderPass) :
    ((gpu.getOpsRenderPass rt tex made).2.passesMade =
      if gpu.opsRenderPass = none then gpu.passesMade + 1 else gpu.passesMade) ∧
    ((gpu.getOpsRenderPass rt tex made).1 =
      (gpu.getOpsRenderPass rt tex made).2.opsRenderPass.map fun q => q.address) ∧
    (∀ p, gpu.opsRenderPass = some p → (gpu.getOpsRenderPass rt tex made).1 = some p.address) ∧
    (∀ a, (gpu.getOpsRenderPass rt tex made).1 = some a →
      ∃ q, (gpu.getOpsRenderPass rt tex made).2.opsRenderPass = some q ∧ q.address = a ∧
        q.renderTarget = rt ∧ q.renderTargetTexture = tex) ∧
    ((gpu.getOpsRenderPass rt tex made).1 = none → gpu.opsRenderPass = none ∧ made = none) ∧
    (∀ (reqs : List PassRequest) (out : List (Option Nat) × GLGpu),
      gpu.runPassRequests reqs = some out →
      ∀ a b, some a ∈ out.1 → some b ∈ out.1 → a = b) := by
  refine ⟨?_, ?_, ?_, ?_, ?_, fun reqs out h => runPassRequests_same reqs gpu out h⟩
  · cases hc : gpu.opsRenderPass with
    | some p => simp [getOpsRenderPass_cached gpu rt tex made p hc]
    | none => simp [getOpsRenderPass_empty gpu rt tex made hc]
  · rfl
  · intro p hp
    simp [getOpsRenderPass_cached gpu rt tex made p hp]
  · intro a ha
    cases hc : gpu.opsRenderPass with
    | some p =>
      simp only [getOpsRenderPass_cached gpu rt tex made p hc, Option.some.injEq] at ha ⊢
      exact ⟨_, rfl, ha, rfl, rfl⟩
    | none =>
      cases made with
      | none => simp [getOpsRenderPass_empty gpu rt tex none hc] at ha
      | some q =>
        simp only [getOpsRenderPass_empty gpu rt tex (some q) hc, Option.map_some',
          Option.some.injEq] at ha ⊢
        exact ⟨_, rfl, ha, rfl, rfl⟩
  · intro hnone
    cases hc : gpu.opsRenderPass with
    | some p => simp [getOpsRenderPass_cached gpu rt tex made p hc] at hnone
    | none =>
      cases made with
      | none => exact ⟨rfl, rfl⟩
      | some q => simp [getOpsRenderPass_empty gpu rt tex (some q) hc] at hnone

/-- C9 on a fresh device: two requests, with the pairs `(1, 2)` and `(3, 4)`;
`Make` would answer with the pass at address 100 the first time and with
another one, at address 200, the second time.  Both requests return address
100, one pass was made, and the pooled pass is bound to `(3, 4)`. -/
theorem getOpsRenderPass_pools_one_witness :
    (GLGpu.initial true (fun _ => ⟨0, 0⟩) (fun _ => 4)).runPassRequests
        [.getOpsRenderPass (some 1) (some 2) (some ⟨100, none, none⟩),
         .getOpsRenderPass (some 3) (some 4) (some ⟨200, none, none⟩)] =
      some ([some 100, some 100],
        { GLGpu.initial true (fun _ => ⟨0, 0⟩) (fun _ => 4) with
          opsRenderPass := some ⟨100, some 3, some 4⟩, passesMade := 1 }) ∧
    (∀ a b, some a ∈ [some 100, some 100] → some b ∈ [some 100, some 100] → a = b) :=
  ⟨rfl, (getOpsRenderPass_pools_one (GLGpu.initial true (fun _ => ⟨0, 0⟩) (fun _ => 4)) none none
    none).2.2.2.2.2
      [.getOpsRenderPass (some 1) (some 2) (some ⟨100, none, none⟩),
       .getOpsRenderPass (some 3) (some 4) (some ⟨200, none, none⟩)]
      ([some 100, some 100],
        { GLGpu.initial true (fun _ => ⟨0, 0⟩) (fun _ => 4) with
          opsRenderPass := some ⟨100, some 3, some 4⟩, passesMade := 1 }) rfl⟩

/-! ## Pixel transfer: the driver calls -/

theorem toInt_eq (v : Nat) (h : (v : Int) ≤ INT_MAX) : toInt v = (v : Int) := by
  unfold INT_MAX at h
  unfold toInt
  rw [if_pos (by omega)]
  omega

theorem pixelStorei_calls (gl : GLState) (pname : Nat) (param : Int) :
    (gl.pixelStorei pname param).calls = gl.calls ++ [GLCall.pixelStorei pname param] := by
  unfold GLState.pixelStorei
  dsimp only
  split
  · split <;> rfl
  · split
    · split <;> rfl
    · rfl

theorem pixelStorei_textures (gl : GLState) (pname : Nat) (param : Int) :
    (gl.pixelStorei pname param).textures = gl.textures := by
  unfold GLState.pixelStorei
  dsimp only
  split
  · split <;> rfl
  · split
    · split <;> rfl
    · rfl

theorem pixelStorei_binding (gl : GLState) (pname : Nat) (param : Int) :
    (gl.pixelStorei pname param).binding = gl.binding := by
  unfold GLState.pixelStorei
  dsimp only
  split
  · split <;> rfl
  · split
    · split <;> rfl
    · rfl

theorem pixelStorei_unpackSubimage (gl : GLState) (pname : Nat) (param : Int) :
    (gl.pixelStorei pname param).unpackSubimage = gl.unpackSubimage := by
  unfold GLState.pixelStorei
  dsimp only
  split
  · split <;> rfl
  · split
    · split <;> rfl
    · rfl

theorem pixelStorei_alignment_rowLength (gl : GLState) (param : Int) :
    (gl.pixelStorei GL_UNPACK_ALIGNMENT param).unpackRowLength = gl.unpackRowLength := by
  unfold GLState.pixelStorei
  dsimp only
  rw [if_pos rfl]
  split <;> rfl

theorem pixelStorei_alignment_set (gl : GLState) (param : Int)
    (h : param = 1 ∨ param = 2 ∨ param = 4 ∨ param = 8) :
    (gl.pixelStorei GL_UNPACK_ALIGNMENT param).unpackAlignment = param.toNat := by
  unfold GLState.pixelStorei
  dsimp only
  rw [if_pos rfl, if_pos h]

theorem pixelStorei_rowLength_alignment (gl : GLState) (param : Int) :
    (gl.pixelStorei GL_UNPACK_ROW_LENGTH param).unpackAlignment = gl.unpackAlignment := by
  unfold GLState.pixelStorei
  dsimp only
  rw [if_neg (by decide), if_pos rfl]
  split <;> rfl

theorem pixelStorei_rowLength_set (gl : GLState) (param : Int)
    (hs : gl.unpackSubimage = true) (hp : 0 ≤ param) :
    (gl.pixelStorei GL_UNPACK_ROW_LENGTH param).unpackRowLength = param.toNat := by
  unfold GLState.pixelStorei
  dsimp only
  rw [if_neg (by decide), if_pos rfl, if_pos ⟨hs, hp⟩]

theorem texSubImage2D_calls (gl : GLState) (target : Nat) (level x y width height : Int)
    (format type : Nat) (client : Nat → Nat) (offset : Nat) :
    (gl.texSubImage2D target level x y width height format type client offset).calls =
      gl.calls ++ [GLCall.texSubImage2D target level x y width height format type offset] := by
  unfold GLState.texSubImage2D
  dsimp only
  split
  · rfl
  · split <;> rfl

theorem texSubImage2D_unpackRowLength (gl : GLState) (target : Nat) (level x y width height : Int)
    (format type : Nat) (client : Nat → Nat) (offset : Nat) :
    (gl.texSubImage2D target level x y width height format type client offset).unpackRowLength =
      gl.unpackRowLength := by
  unfold GLState.texSubImage2D
  dsimp only
  split
  · rfl
  · split <;> rfl

theorem texSubImage2D_unpackAlignment (gl : GLState) (target : Nat) (level x y width height : Int)
    (format type : Nat) (client : Nat → Nat) (offset : Nat) :
    (gl.texSubImage2D target level x y width height format type client offset).unpackAlignment =
      gl.unpackAlignment := by
  unfold GLState.texSubImage2D
  dsimp only
  split
  · rfl
  · split <;> rfl

theorem texSubImage2D_unpackSubimage (gl : GLState) (target : Nat) (level x y width height : Int)
    (format type : Nat) (client : Nat → Nat) (offset : Nat) :
    (gl.texSubImage2D target level x y width height format type client offset).unpackSubimage =
      gl.unpackSubimage := by
  unfold GLState.texSubImage2D
  dsimp only
  split
  · rfl
  · split <;> rfl

theorem texSubImage2D_binding (gl : GLState) (target : Nat) (level x y width height : Int)
    (format type : Nat) (client : Nat → Nat) (offset : Nat) :
    (gl.texSubImage2D target level x y width height format type client offset).binding =
      gl.binding := by
  unfold GLState.texSubImage2D
  dsimp only
  split
  · rfl
  · split <;> rfl

/-- The per-row loop of `writePixels`: what it records, and what it leaves alone. -/
theorem rows_frame (target : Nat) (x y width : Int) (format : Nat) (pixels : Nat → Nat)
    (rowBytes : Nat) (rows : List Nat) :
    ∀ gl : GLState,
      (rows.foldl (fun (gl : GLState) (row : Nat) =>
          gl.texSubImage2D target 0 x (y + (row : Int)) width 1 format GL_UNSIGNED_BYTE pixels
            (mulSizeT (toSizeT (row : Int)) rowBytes)) gl).calls =
        gl.calls ++ rows.map (fun (row : Nat) =>
          GLCall.texSubImage2D target 0 x (y + (row : Int)) width 1 format GL_UNSIGNED_BYTE
            (mulSizeT (toSizeT (row : Int)) rowBytes)) ∧
      (rows.foldl (fun (gl : GLState) (row : Nat) =>
          gl.texSubImage2D target 0 x (y + (row : Int)) width 1 format GL_UNSIGNED_BYTE pixels
            (mulSizeT (toSizeT (row : Int)) rowBytes)) gl).unpackRowLength = gl.unpackRowLength := by
  induction rows with
  | nil => intro gl; simp
  | cons row rest ih =>
    intro gl
    simp only [List.foldl_cons, List.map_cons]
    rw [(ih _).1, (ih _).2, texSubImage2D_calls, texSubImage2D_unpackRowLength]
    simp

/-- C5, as stated, fails: with one byte per pixel and `rowBytes = 2^32 + 1` the
quotient `rowBytes / bytesPerPixel` is 4294967297, yet the row length the
row-length path hands to the driver, and the driver holds during the transfer,
is 1. -/
theorem writePixels_row_length_truncated :
    (4294967297 : Nat) / 1 = 4294967297 ∧
    ((byteGpu true).writePixels (some ⟨1, GL_TEXTURE_2D, 0⟩) ⟨0, 0, 1, 2⟩ markedBuffer
        4294967297).context.gl.calls =
      (byteGpu true).context.gl.calls ++
        [GLCall.bindTexture GL_TEXTURE_2D 1, GLCall.pixelStorei GL_UNPACK_ALIGNMENT 1,
         GLCall.pixelStorei GL_UNPACK_ROW_LENGTH 1,
         GLCall.texSubImage2D GL_TEXTURE_2D 0 0 0 1 2 GL_RED GL_UNSIGNED_BYTE 0,
         GLCall.pixelStorei GL_UNPACK_ROW_LENGTH 0] ∧
    ((byteGpu true).rowLengthTransferState ⟨1, GL_TEXTURE_2D, 0⟩ 4294967297).unpackRowLength =
      1 := by
  refine ⟨by decide, by decide, by decide⟩

/-- C5, amended: for a format of positive byte size, `writePixels` follows a
set-use-reset discipline on the unpack row length.  With the capability, the
calls it issues are: bind, set the alignment, set the row length to
`static_cast<int>(rowBytes / bytesPerPixel)` (which is `rowBytes / bytesPerPixel`
whenever that quotient is at most `INT_MAX`; the quotient is the whole number
of pixels that fit in `rowBytes`), one transfer, set the row length to 0; and
the driver's row length is 0 afterwards.  Without the capability no call it
issues sets the row length and the driver's row length is what it was.  Hence
a row length of 0 before the call is 0 after it. -/
theorem writePixels_row_length_discipline (gpu : GLGpu) (sampler : GLSampler) (rect : Rect)
    (pixels : Nat → Nat) (rowBytes : Nat)
    (hpos : 0 < gpu.context.bytesPerPixel sampler.format) :
    (gpu.context.unpackRowLengthSupport = true →
      (gpu.writePixels (some sampler) rect pixels rowBytes).context.gl.calls =
        gpu.context.gl.calls ++
          [GLCall.bindTexture sampler.target sampler.id,
           GLCall.pixelStorei GL_UNPACK_ALIGNMENT (toInt (gpu.context.bytesPerPixel sampler.format)),
           GLCall.pixelStorei GL_UNPACK_ROW_LENGTH
             (toInt (rowBytes / gpu.context.bytesPerPixel sampler.format)),
           GLCall.texSubImage2D sampler.target 0 rect.x rect.y rect.width rect.height
             (gpu.context.getTextureFormat sampler.format).externalFormat GL_UNSIGNED_BYTE 0,
           GLCall.pixelStorei GL_UNPACK_ROW_LENGTH 0] ∧
      ((rowBytes / gpu.context.bytesPerPixel sampler.format : Nat) ≤ INT_MAX →
        toInt (rowBytes / gpu.context.bytesPerPixel sampler.format) =
          (rowBytes / gpu.context.bytesPerPixel sampler.format : Nat)) ∧
      (rowBytes / gpu.context.bytesPerPixel sampler.format *
          gpu.context.bytesPerPixel sampler.format ≤ rowBytes ∧
        rowBytes < (rowBytes / gpu.context.bytesPerPixel sampler.format + 1) *
          gpu.context.bytesPerPixel sampler.format) ∧
      (gpu.writePixels (some sampler) rect pixels rowBytes).context.gl.unpackRowLength = 0) ∧
    (gpu.context.unpackRowLengthSupport = false →
      (∃ issued, (gpu.writePixels (some sampler) rect pixels rowBytes).context.gl.calls =
          gpu.context.gl.calls ++ issued ∧
        ∀ v, GLCall.pixelStorei GL_UNPACK_ROW_LENGTH v ∉ issued) ∧
      (gpu.writePixels (some sampler) rect pixels rowBytes).context.gl.unpackRowLength =
        gpu.context.gl.unpackRowLength) ∧
    (gpu.context.gl.unpackRowLength = 0 →
      (gpu.writePixels (some sampler) rect pixels rowBytes).context.gl.unpackRowLength = 0) := by
  have htrue : gpu.context.unpackRowLengthSupport = true →
      (gpu.writePixels (some sampler) rect pixels rowBytes).context.gl.unpackRowLength = 0 := by
    intro hs
    simp only [GLGpu.writePixels, hs, if_true, GLGpu.withGL]
    rw [pixelStorei_rowLength_set _ _ _ (le_refl 0)]
    · rfl
    · simpa [texSubImage2D_unpackSubimage, pixelStorei_unpackSubimage, GLState.bindTexture,
        GLState.record, Context.unpackRowLengthSupport] using hs
  have hfalse : gpu.context.unpackRowLengthSupport = false →
      (gpu.writePixels (some sampler) rect pixels rowBytes).context.gl.unpackRowLength =
        gpu.context.gl.unpackRowLength := by
    intro hs
    simp only [GLGpu.writePixels, hs, Bool.false_eq_true, if_false, GLGpu.withGL]
    split
    · rw [texSubImage2D_unpackRowLength, pixelStorei_alignment_rowLength]
      rfl
    · rw [(rows_frame _ _ _ _ _ _ _ _ _).2, pixelStorei_alignment_rowLength]
      rfl
  refine ⟨fun hs => ⟨?_, ?_, ⟨Nat.div_mul_le_self _ _, ?_⟩, htrue hs⟩,
    fun hs => ⟨?_, hfalse hs⟩, ?_⟩
  · simp [GLGpu.writePixels, hs, GLGpu.withGL, pixelStorei_calls, texSubImage2D_calls,
      GLState.bindTexture, GLState.record]
  · exact toInt_eq _
  · rw [Nat.mul_comm]
    exact Nat.lt_mul_div_succ rowBytes hpos
  · simp only [GLGpu.writePixels, hs, Bool.false_eq_true, if_false, GLGpu.withGL]
    split
    · refine ⟨[GLCall.bindTexture sampler.target sampler.id,
        GLCall.pixelStorei GL_UNPACK_ALIGNMENT (toInt (gpu.context.bytesPerPixel sampler.format)),
        GLCall.texSubImage2D sampler.target 0 rect.x rect.y rect.width rect.height
          (gpu.context.getTextureFormat sampler.format).externalFormat GL_UNSIGNED_BYTE 0],
        ?_, ?_⟩
      · rw [texSubImage2D_calls, pixelStorei_calls]
        simp [GLState.bindTexture, GLState.record]
      · intro v
        simp [GL_UNPACK_ROW_LENGTH, GL_UNPACK_ALIGNMENT]
    · refine ⟨[GLCall.bindTexture sampler.target sampler.id,
        GLCall.pixelStorei GL_UNPACK_ALIGNMENT (toInt (gpu.context.bytesPerPixel sampler.format))]
        ++ (List.range rect.height.toNat).map (fun (row : Nat) =>
          GLCall.texSubImage2D sampler.target 0 rect.x (rect.y + (row : Int)) rect.width 1
            (gpu.context.getTextureFormat sampler.format).externalFormat GL_UNSIGNED_BYTE
            (mulSizeT (toSizeT (row : Int)) rowBytes)), ?_, ?_⟩
      · rw [(rows_frame _ _ _ _ _ _ _ _ _).1, pixelStorei_calls]
        simp [GLState.bindTexture, GLState.record]
      · intro v
        simp [GL_UNPACK_ROW_LENGTH, GL_UNPACK_ALIGNMENT]
  · intro h0
    cases hs : gpu.context.unpackRowLengthSupport with
    | true => exact htrue hs
    | false => rw [hfalse hs, h0]

/-- The amended C5 on the scenario device, whose format has 4 bytes per pixel:
with the capability, a row length of 0 before the call is 0 after it, and the
calls are the five of the set-use-reset sequence. -/
theorem writePixels_row_length_discipline_witness :
    0 < (scenarioGpu true).context.bytesPerPixel 0 ∧
    ((scenarioGpu true).writePixels (some ⟨1, GL_TEXTURE_2D, 0⟩) ⟨5, 5, 10, 10⟩ solidRed
      48).context.gl.unpackRowLength = 0 ∧
    ((scenarioGpu true).writePixels (some ⟨1, GL_TEXTURE_2D, 0⟩) ⟨5, 5, 10, 10⟩ solidRed
      48).context.gl.calls =
      (scenarioGpu true).context.gl.calls ++
        [GLCall.bindTexture GL_TEXTURE_2D 1, GLCall.pixelStorei GL_UNPACK_ALIGNMENT (toInt 4),
         GLCall.pixelStorei GL_UNPACK_ROW_LENGTH (toInt (48 / 4)),
         GLCall.texSubImage2D GL_TEXTURE_2D 0 5 5 10 10 GL_RGBA GL_UNSIGNED_BYTE 0,
         GLCall.pixelStorei GL_UNPACK_ROW_LENGTH 0] :=
  ⟨by decide,
   (writePixels_row_length_discipline (scenarioGpu true) ⟨1, GL_TEXTURE_2D, 0⟩ ⟨5, 5, 10, 10⟩
      solidRed 48 (by decide)).2.2 rfl,
   ((writePixels_row_length_discipline (scenarioGpu true) ⟨1, GL_TEXTURE_2D, 0⟩ ⟨5, 5, 10, 10⟩
      solidRed 48 (by decide)).1 rfl).1⟩

/-! ## Pixel transfer: what reaches the texture -/

theorem rowStride_self (n length : Nat) (hn : 0 < n) : rowStride n n length = n * length := by
  unfold rowStride
  have h : (n * length + n - 1) / n = length := by
    rw [Nat.add_sub_assoc hn, Nat.mul_comm n length, Nat.add_comm,
      Nat.add_mul_div_right _ _ hn, Nat.div_eq_of_lt (by omega)]
    simp
  rw [h]

/-- With the alignment equal to the pixel size, pixel `i` of row `j` is read at
`offset + j * (n * length) + i * n`. -/
theorem unpackPixel_eq (gl : GLState) (width : Int) (format : Nat) (client : Nat → Nat)
    (offset i j n : Nat) (hfmt : formatComponents format = n) (hn : 0 < n)
    (halign : gl.unpackAlignment = n) :
    gl.unpackPixel width format client offset i j =
      (List.range n).map fun c => client (offset + j * (n * gl.unpackLength width) + i * n + c) := by
  unfold GLState.unpackPixel GLState.unpackRowOffset
  rw [hfmt, halign, rowStride_self n _ hn]

theorem texSubImage2D_textures (gl : GLState) (target : Nat) (x y width height : Int)
    (format : Nat) (client : Nat → Nat) (offset : Nat) (tex : TextureObject)
    (htex : gl.textures (gl.binding target) = some tex) (hfmt : 0 < formatComponents format)
    (hx : 0 ≤ x) (hy : 0 ≤ y) (hw : 0 ≤ width) (hh : 0 ≤ height)
    (hxw : x + width ≤ tex.width) (hyh : y + height ≤ tex.height) :
    (gl.texSubImage2D target 0 x y width height format GL_UNSIGNED_BYTE client offset).textures =
      Function.update gl.textures (gl.binding target)
        (some { tex with texels := overwriteTexels tex.texels x y width height
                           (gl.unpackPixel width format client offset) }) := by
  unfold GLState.texSubImage2D
  simp only [htex]
  rw [if_pos (by exact ⟨trivial, trivial, hfmt, hx, hy, hw, hh, hxw, hyh⟩)]

theorem toInt_bytesPerPixel (n : Nat) (h : n = 1 ∨ n = 2 ∨ n = 4) :
    toInt n = (n : Int) ∧ ((n : Int) = 1 ∨ (n : Int) = 2 ∨ (n : Int) = 4 ∨ (n : Int) = 8) := by
  rcases h with h | h | h <;> subst h <;> decide

/-- The state in which `writePixels` issues its transfers, up to the row length:
the sampler's texture is bound and the alignment is the pixel size. -/
theorem writePixels_setup (gl : GLState) (target name n : Nat) (h : n = 1 ∨ n = 2 ∨ n = 4) :
    ((gl.bindTexture target name).pixelStorei GL_UNPACK_ALIGNMENT (toInt n)).binding target = name ∧
    ((gl.bindTexture target name).pixelStorei GL_UNPACK_ALIGNMENT (toInt n)).textures = gl.textures ∧
    ((gl.bindTexture target name).pixelStorei GL_UNPACK_ALIGNMENT (toInt n)).unpackAlignment = n ∧
    ((gl.bindTexture target name).pixelStorei GL_UNPACK_ALIGNMENT (toInt n)).unpackSubimage =
      gl.unpackSubimage ∧
    ((gl.bindTexture target name).pixelStorei GL_UNPACK_ALIGNMENT (toInt n)).unpackRowLength =
      gl.unpackRowLength := by
  have hn := toInt_bytesPerPixel n h
  refine ⟨?_, ?_, ?_, ?_, ?_⟩
  · rw [pixelStorei_binding]
    simp [GLState.bindTexture]
  · rw [pixelStorei_textures]
    rfl
  · rw [hn.1, pixelStorei_alignment_set _ _ hn.2]
    simp
  · rw [pixelStorei_unpackSubimage]
    rfl
  · rw [pixelStorei_alignment_rowLength]
    rfl

/-- What `writePixels` leaves in the driver's texture store when the rows are
tightly packed, on either path. -/
theorem writePixels_tight_textures (gpu : GLGpu) (sampler : GLSampler) (tex : TextureObject)
    (rect : Rect) (pixels : Nat → Nat) (rowBytes : Nat)
    (htex : gpu.context.gl.textures sampler.id = some tex)
    (hbpp : gpu.context.bytesPerPixel sampler.format = 1 ∨
      gpu.context.bytesPerPixel sampler.format = 2 ∨ gpu.context.bytesPerPixel sampler.format = 4)
    (hfmt : formatComponents (gpu.context.getTextureFormat sampler.format).externalFormat =
      gpu.context.bytesPerPixel sampler.format)
    (hx : 0 ≤ rect.x) (hy : 0 ≤ rect.y) (hw : 0 ≤ rect.width) (hh : 0 ≤ rect.height)
    (hxw : rect.x + rect.width ≤ tex.width) (hyh : rect.y + rect.height ≤ tex.height)
    (hint : rect.width ≤ INT_MAX)
    (hrow : rowBytes = rect.width.toNat * gpu.context.bytesPerPixel sampler.format) :
    (gpu.writePixels (some sampler) rect pixels rowBytes).context.gl.textures =
      Function.update gpu.context.gl.textures sampler.id
        (some { tex with texels := overwriteTexels tex.texels rect.x rect.y rect.width rect.height
                           (fun i j => sourcePixel pixels (gpu.context.bytesPerPixel sampler.format)
                             (j * rect.width.toNat + i)) }) := by
  obtain ⟨hb, ht, ha, hsub, hrl⟩ := writePixels_setup gpu.context.gl sampler.target sampler.id
    (gpu.context.bytesPerPixel sampler.format) hbpp
  have hpos : 0 < gpu.context.bytesPerPixel sampler.format := by omega
  have hfpos : 0 < formatComponents (gpu.context.getTextureFormat sampler.format).externalFormat := by
    rw [hfmt]; exact hpos
  have hpix : ∀ (gl : GLState), gl.unpackAlignment = gpu.context.bytesPerPixel sampler.format →
      gl.unpackLength rect.width = rect.width.toNat → ∀ i j,
      gl.unpackPixel rect.width (gpu.context.getTextureFormat sampler.format).externalFormat
        pixels 0 i j =
      sourcePixel pixels (gpu.context.bytesPerPixel sampler.format) (j * rect.width.toNat + i) := by
    intro gl hal hlen i j
    rw [unpackPixel_eq gl _ _ _ _ _ _ _ hfmt hpos hal, hlen]
    unfold sourcePixel
    apply List.map_congr_left
    intro c _
    congr 1
    ring
  cases hs : gpu.context.unpackRowLengthSupport with
  | true =>
    have hsub1 : gpu.context.gl.unpackSubimage = true := hs
    have hq : rowBytes / gpu.context.bytesPerPixel sampler.format = rect.width.toNat := by
      rw [hrow, Nat.mul_div_cancel _ hpos]
    have hqi : toInt (rowBytes / gpu.context.bytesPerPixel sampler.format) = rect.width := by
      rw [hq, toInt_eq _ (by omega)]
      omega
    simp only [GLGpu.writePixels, hs, if_true, GLGpu.withGL, pixelStorei_textures]
    rw [texSubImage2D_textures _ _ _ _ _ _ _ _ _ tex (by
        rw [pixelStorei_binding, pixelStorei_textures, hb, ht]; exact htex) hfpos hx hy hw hh hxw hyh]
    rw [pixelStorei_binding, pixelStorei_textures, hb, ht]
    have key : (((gpu.context.gl.bindTexture sampler.target sampler.id).pixelStorei
        GL_UNPACK_ALIGNMENT (toInt (gpu.context.bytesPerPixel sampler.format))).pixelStorei
        GL_UNPACK_ROW_LENGTH (toInt (rowBytes / gpu.context.bytesPerPixel sampler.format))).unpackPixel
          rect.width (gpu.context.getTextureFormat sampler.format).externalFormat pixels 0 =
        fun i j => sourcePixel pixels (gpu.context.bytesPerPixel sampler.format)
          (j * rect.width.toNat + i) := by
      funext i j
      apply hpix
      · rw [pixelStorei_rowLength_alignment, ha]
      · unfold GLState.unpackLength
        rw [pixelStorei_rowLength_set _ _ (by rw [hsub]; exact hsub1) (by rw [hqi]; exact hw), hqi]
        split <;> rfl
    rw [key]
  | false =>
    have hsub1 : gpu.context.gl.unpackSubimage = false := hs
    have htight : mulSizeT (toSizeT rect.width) (gpu.context.bytesPerPixel sampler.format) =
        rowBytes := by
      unfold mulSizeT toSizeT
      unfold INT_MAX at hint
      rw [hrow]
      have h1 : (rect.width % 18446744073709551616).toNat = rect.width.toNat := by omega
      rw [h1]
      apply Nat.mod_eq_of_lt
      have h2 : rect.width.toNat < 2147483648 := by omega
      have h3 : gpu.context.bytesPerPixel sampler.format ≤ 4 := by omega
      calc rect.width.toNat * gpu.context.bytesPerPixel sampler.format
          ≤ 2147483648 * 4 := Nat.mul_le_mul (le_of_lt h2) h3
        _ < 18446744073709551616 := by norm_num
    simp only [GLGpu.writePixels, hs, Bool.false_eq_true, if_false, htight, if_true, GLGpu.withGL]
    rw [texSubImage2D_textures _ _ _ _ _ _ _ _ _ tex (by rw [hb, ht]; exact htex) hfpos hx hy hw hh
      hxw hyh]
    rw [hb, ht]
    have key : ((gpu.context.gl.bindTexture sampler.target sampler.id).pixelStorei
        GL_UNPACK_ALIGNMENT (toInt (gpu.context.bytesPerPixel sampler.format))).unpackPixel
          rect.width (gpu.context.getTextureFormat sampler.format).externalFormat pixels 0 =
        fun i j => sourcePixel pixels (gpu.context.bytesPerPixel sampler.format)
          (j * rect.width.toNat + i) := by
      funext i j
      apply hpix
      · exact ha
      · unfold GLState.unpackLength
        rw [hsub, hsub1]
        simp
    rw [key]

/-- C4: for a texture in use, a rectangle inside its bounds and a buffer whose
`rowBytes` is exactly `rect.width * bytesPerPixel`, `writePixels` leaves the
texture with its size, with texel `(rect.x + i, rect.y + j)` equal to source
pixel `j * rect.width + i` for every `i < rect.width` and `j < rect.height`, and
with every texel outside the rectangle as it was; this holds on a driver with
and on a driver without `GL_UNPACK_ROW_LENGTH`, and the two drivers end with
the same texture store.  The byte size of the format is one of 1, 2, 4 and is
the size of a pixel of its external format; `rect.width` is an `int`. -/
theorem writePixels_tight_rows (gpu : GLGpu) (sampler : GLSampler) (tex : TextureObject)
    (rect : Rect) (pixels : Nat → Nat) (rowBytes : Nat)
    (htex : gpu.context.gl.textures sampler.id = some tex)
    (hbpp : gpu.context.bytesPerPixel sampler.format = 1 ∨
      gpu.context.bytesPerPixel sampler.format = 2 ∨ gpu.context.bytesPerPixel sampler.format = 4)
    (hfmt : formatComponents (gpu.context.getTextureFormat sampler.format).externalFormat =
      gpu.context.bytesPerPixel sampler.format)
    (hx : 0 ≤ rect.x) (hy : 0 ≤ rect.y) (hw : 0 ≤ rect.width) (hh : 0 ≤ rect.height)
    (hxw : rect.x + rect.width ≤ tex.width) (hyh : rect.y + rect.height ≤ tex.height)
    (hint : rect.width ≤ INT_MAX)
    (hrow : rowBytes = rect.width.toNat * gpu.context.bytesPerPixel sampler.format) :
    (∀ b : Bool, ∃ written,
      ((gpu.withUnpackSubimage b).writePixels (some sampler) rect pixels
        rowBytes).context.gl.textures sampler.id = some written ∧
      written.width = tex.width ∧ written.height = tex.height ∧
      (∀ i j : Nat, (i : Int) < rect.width → (j : Int) < rect.height →
        written.texels (rect.x + i) (rect.y + j) =
          sourcePixel pixels (gpu.context.bytesPerPixel sampler.format)
            (j * rect.width.toNat + i)) ∧
      (∀ u v : Int,
        ¬ (rect.x ≤ u ∧ u < rect.x + rect.width ∧ rect.y ≤ v ∧ v < rect.y + rect.height) →
        written.texels u v = tex.texels u v)) ∧
    ((gpu.withUnpackSubimage true).writePixels (some sampler) rect pixels
        rowBytes).context.gl.textures =
      ((gpu.withUnpackSubimage false).writePixels (some sampler) rect pixels
        rowBytes).context.gl.textures := by
  have hall : ∀ b : Bool,
      ((gpu.withUnpackSubimage b).writePixels (some sampler) rect pixels
        rowBytes).context.gl.textures =
      Function.update gpu.context.gl.textures sampler.id
        (some { tex with texels := overwriteTexels tex.texels rect.x rect.y rect.width rect.height
                           (fun i j => sourcePixel pixels (gpu.context.bytesPerPixel sampler.format)
                             (j * rect.width.toNat + i)) }) :=
    fun b => writePixels_tight_textures (gpu.withUnpackSubimage b) sampler tex rect pixels rowBytes
      htex hbpp hfmt hx hy hw hh hxw hyh hint hrow
  refine ⟨fun b => ⟨TextureObject.mk tex.width tex.height
      (overwriteTexels tex.texels rect.x rect.y rect.width rect.height
        (fun i j => sourcePixel pixels (gpu.context.bytesPerPixel sampler.format)
          (j * rect.width.toNat + i))),
      by rw [hall b, Function.update_same], rfl, rfl, ?_, ?_⟩,
    by rw [hall true, hall false]⟩
  · intro i j hi hj
    simp only [overwriteTexels]
    rw [if_pos (by omega)]
    have h1 : (rect.x + (i : Int) - rect.x).toNat = i := by omega
    have h2 : (rect.y + (j : Int) - rect.y).toNat = j := by omega
    rw [h1, h2]
  · intro u v hout
    simp only [overwriteTexels]
    rw [if_neg hout]

/-- C4 on the scenario: a 64 by 64 four-byte-per-pixel texture, a 10 by 10
rectangle at (5, 5) of solid red pixels, `rowBytes = 40`. -/
theorem writePixels_tight_rows_witness :
    (∃ written,
      (((scenarioGpu true).withUnpackSubimage false).writePixels (some ⟨1, GL_TEXTURE_2D, 0⟩)
        ⟨5, 5, 10, 10⟩ solidRed 40).context.gl.textures 1 = some written ∧
      written.width = 64 ∧ written.height = 64 ∧
      (∀ i j : Nat, (i : Int) < 10 → (j : Int) < 10 →
        written.texels (5 + i) (5 + j) = sourcePixel solidRed 4 (j * 10 + i)) ∧
      (∀ u v : Int, ¬ (5 ≤ u ∧ u < 5 + 10 ∧ 5 ≤ v ∧ v < 5 + 10) → written.texels u v = [])) ∧
    (((scenarioGpu true).withUnpackSubimage true).writePixels (some ⟨1, GL_TEXTURE_2D, 0⟩)
        ⟨5, 5, 10, 10⟩ solidRed 40).context.gl.textures =
      (((scenarioGpu true).withUnpackSubimage false).writePixels (some ⟨1, GL_TEXTURE_2D, 0⟩)
        ⟨5, 5, 10, 10⟩ solidRed 40).context.gl.textures :=
  ⟨(writePixels_tight_rows (scenarioGpu true) ⟨1, GL_TEXTURE_2D, 0⟩
      { width := 64, height := 64, texels := fun _ _ => [] } ⟨5, 5, 10, 10⟩ solidRed 40
      (by simp [scenarioGpu, GLGpu.createTexture, GLGpu.initial, GLState.initial, GLGpu.withGL,
        GLState.genTextures, GLState.bindTexture, GLState.texParameteri, GLState.texImage2D,
        GLState.record])
      (Or.inr (Or.inr rfl)) (by decide) (by decide) (by decide) (by decide) (by decide)
      (by decide) (by decide) (by decide) (by decide)).1 false,
   (writePixels_tight_rows (scenarioGpu true) ⟨1, GL_TEXTURE_2D, 0⟩
      { width := 64, height := 64, texels := fun _ _ => [] } ⟨5, 5, 10, 10⟩ solidRed 40
      (by simp [scenarioGpu, GLGpu.createTexture, GLGpu.initial, GLState.initial, GLGpu.withGL,
        GLState.genTextures, GLState.bindTexture, GLState.texParameteri, GLState.texImage2D,
        GLState.record])
      (Or.inr (Or.inr rfl)) (by decide) (by decide) (by decide) (by decide) (by decide)
      (by decide) (by decide) (by decide) (by decide)).2⟩

/-! ## Pixel transfer: padded rows -/

theorem unpackPixel_congr (gl1 gl2 : GLState) (ha : gl1.unpackAlignment = gl2.unpackAlignment)
    (hr : gl1.unpackRowLength = gl2.unpackRowLength)
    (hs : gl1.unpackSubimage = gl2.unpackSubimage) :
    gl1.unpackPixel = gl2.unpackPixel := by
  funext width format client offset i j
  unfold GLState.unpackPixel GLState.unpackRowOffset GLState.unpackLength
  rw [ha, hr, hs]

theorem overwriteTexels_congr (texels : Int → Int → List Nat) (x y width height : Int)
    (f g : Nat → Nat → List Nat)
    (h : ∀ i j : Nat, (i : Int) < width → (j : Int) < height → f i j = g i j) :
    overwriteTexels texels x y width height f = overwriteTexels texels x y width height g := by
  funext u v
  unfold overwriteTexels
  split
  · apply h <;> omega
  · rfl

theorem overwriteTexels_none (texels : Int → Int → List Nat) (x y width : Int)
    (f : Nat → Nat → List Nat) : overwriteTexels texels x y width 0 f = texels := by
  funext u v
  unfold overwriteTexels
  rw [if_neg (by omega)]

/-- Writing row `k` below the first `k` rows of a rectangle gives its first
`k + 1` rows. -/
theorem overwriteTexels_row (texels : Int → Int → List Nat) (x y width : Int) (k : Nat)
    (f : Nat → Nat → List Nat) (g : Nat → Nat → List Nat) (hg : ∀ i, g i 0 = f i k) :
    overwriteTexels (overwriteTexels texels x y width k f) x (y + (k : Int)) width 1 g =
      overwriteTexels texels x y width ((k + 1 : Nat) : Int) f := by
  funext u v
  unfold overwriteTexels
  by_cases h1 : x ≤ u ∧ u < x + width ∧ y + (k : Int) ≤ v ∧ v < y + (k : Int) + 1
  · rw [if_pos h1, if_pos (by omega)]
    have e1 : (v - (y + (k : Int))).toNat = 0 := by omega
    have e2 : (v - y).toNat = k := by omega
    rw [e1, e2, hg]
  · rw [if_neg h1]
    by_cases h2 : x ≤ u ∧ u < x + width ∧ y ≤ v ∧ v < y + (k : Int)
    · rw [if_pos h2, if_pos (by omega)]
    · rw [if_neg h2, if_neg (by omega)]

/-- The per-row loop of `writePixels` on a rectangle inside the bound texture:
after `k` rows the texture holds the first `k` rows, row `j` read at the offset
the loop gave for it, and the pixel store is untouched. -/
theorem rows_textures (target : Nat) (x y width : Int) (format : Nat) (pixels : Nat → Nat)
    (rowBytes : Nat) (gl : GLState) (tex : TextureObject)
    (htex : gl.textures (gl.binding target) = some tex) (hfmt : 0 < formatComponents format)
    (hx : 0 ≤ x) (hy : 0 ≤ y) (hw : 0 ≤ width) (hxw : x + width ≤ tex.width) (k : Nat)
    (hk : y + (k : Int) ≤ tex.height) :
    ((List.range k).foldl (fun (gl : GLState) (row : Nat) =>
        gl.texSubImage2D target 0 x (y + (row : Int)) width 1 format GL_UNSIGNED_BYTE pixels
          (mulSizeT (toSizeT (row : Int)) rowBytes)) gl).textures =
      Function.update gl.textures (gl.binding target)
        (some (TextureObject.mk tex.width tex.height
          (overwriteTexels tex.texels x y width k (fun i j =>
            gl.unpackPixel width format pixels (mulSizeT (toSizeT (j : Int)) rowBytes) i 0)))) ∧
    ((List.range k).foldl (fun (gl : GLState) (row : Nat) =>
        gl.texSubImage2D target 0 x (y + (row : Int)) width 1 format GL_UNSIGNED_BYTE pixels
          (mulSizeT (toSizeT (row : Int)) rowBytes)) gl).binding = gl.binding ∧
    ((List.range k).foldl (fun (gl : GLState) (row : Nat) =>
        gl.texSubImage2D target 0 x (y + (row : Int)) width 1 format GL_UNSIGNED_BYTE pixels
          (mulSizeT (toSizeT (row : Int)) rowBytes)) gl).unpackAlignment = gl.unpackAlignment ∧
    ((List.range k).foldl (fun (gl : GLState) (row : Nat) =>
        gl.texSubImage2D target 0 x (y + (row : Int)) width 1 format GL_UNSIGNED_BYTE pixels
          (mulSizeT (toSizeT (row : Int)) rowBytes)) gl).unpackRowLength = gl.unpackRowLength ∧
    ((List.range k).foldl (fun (gl : GLState) (row : Nat) =>
        gl.texSubImage2D target 0 x (y + (row : Int)) width 1 format GL_UNSIGNED_BYTE pixels
          (mulSizeT (toSizeT (row : Int)) rowBytes)) gl).unpackSubimage = gl.unpackSubimage := by
  induction k with
  | zero =>
    refine ⟨?_, rfl, rfl, rfl, rfl⟩
    simp only [List.range_zero, List.foldl_nil, Nat.cast_zero, overwriteTexels_none]
    rw [← htex, Function.update_eq_self]
  | succ k ih =>
    obtain ⟨ht, hb, ha, hr, hs⟩ := ih (by omega)
    simp only [List.range_succ, List.foldl_append, List.foldl_cons, List.foldl_nil]
    refine ⟨?_, ?_, ?_, ?_, ?_⟩
    · rw [texSubImage2D_textures _ _ _ _ _ _ _ _ _
        (TextureObject.mk tex.width tex.height
          (overwriteTexels tex.texels x y width k (fun i j =>
            gl.unpackPixel width format pixels (mulSizeT (toSizeT (j : Int)) rowBytes) i 0)))
        (by rw [ht, hb, Function.update_same]) hfmt hx (by omega) hw (by decide) hxw
        (by show y + (k : Int) + 1 ≤ tex.height; omega)]
      rw [ht, hb, Function.update_idem]
      simp only
      rw [overwriteTexels_row]
      intro i
      rw [unpackPixel_congr _ gl ha hr hs]
    · rw [texSubImage2D_binding, hb]
    · rw [texSubImage2D_unpackAlignment, ha]
    · rw [texSubImage2D_unpackRowLength, hr]
    · rw [texSubImage2D_unpackSubimage, hs]

theorem padded_arith (n rowBytes : Nat) (w : Int) (hn : n = 1 ∨ n = 2 ∨ n = 4)
    (hge : w * (n : Int) ≤ (rowBytes : Int)) (hdvd : n ∣ rowBytes)
    (hfit : ((rowBytes / n : Nat) : Int) ≤ INT_MAX) :
    toInt (rowBytes / n) = ((rowBytes / n : Nat) : Int) ∧ n * (rowBytes / n) = rowBytes ∧
    rowBytes < 8589934592 ∧ (rowBytes / n = 0 → n * w.toNat = rowBytes) ∧
    w.toNat * n ≤ rowBytes := by
  refine ⟨toInt_eq _ hfit, Nat.mul_div_cancel' hdvd, ?_, ?_, ?_⟩
  · have h := Nat.mul_div_cancel' hdvd
    unfold INT_MAX at hfit
    rcases hn with rfl | rfl | rfl <;> omega
  · intro h0
    have h := Nat.mul_div_cancel' hdvd
    rw [h0] at h
    rcases hn with rfl | rfl | rfl <;> omega
  · rcases hn with rfl | rfl | rfl <;> omega

theorem mulSizeT_row (r rowBytes : Nat) (hr : (r : Int) ≤ INT_MAX) (hb : rowBytes < 8589934592) :
    mulSizeT (toSizeT (r : Int)) rowBytes = r * rowBytes := by
  unfold INT_MAX at hr
  unfold mulSizeT toSizeT
  have h1 : ((r : Int) % 18446744073709551616).toNat = r := by omega
  rw [h1]
  apply Nat.mod_eq_of_lt
  have h2 : r < 2147483648 := by omega
  calc r * rowBytes < 2147483648 * 8589934592 := Nat.mul_lt_mul'' h2 hb
    _ = 18446744073709551616 := by norm_num

/-- The driver state in which the row-length path issues its transfer reads
pixel `i` of row `j` where the padded buffer has it. -/
theorem rowLength_unpack (gl : GLState) (target name n rowBytes : Nat) (w : Int) (format : Nat)
    (pixels : Nat → Nat) (hsub : gl.unpackSubimage = true) (hn : n = 1 ∨ n = 2 ∨ n = 4)
    (hfmt : formatComponents format = n)
    (hge : w * (n : Int) ≤ (rowBytes : Int)) (hdvd : n ∣ rowBytes)
    (hfit : ((rowBytes / n : Nat) : Int) ≤ INT_MAX) :
    (((gl.bindTexture target name).pixelStorei GL_UNPACK_ALIGNMENT (toInt n)).pixelStorei
        GL_UNPACK_ROW_LENGTH (toInt (rowBytes / n))).unpackPixel w format pixels 0 =
      paddedPixel pixels n rowBytes ∧
    ∀ j, (((gl.bindTexture target name).pixelStorei GL_UNPACK_ALIGNMENT (toInt n)).pixelStorei
        GL_UNPACK_ROW_LENGTH (toInt (rowBytes / n))).unpackRowOffset w format j = j * rowBytes := by
  obtain ⟨hb, ht, ha, hs, hrl⟩ := writePixels_setup gl target name n hn
  obtain ⟨hq, hmul, _, hzero, _⟩ := padded_arith n rowBytes w hn hge hdvd hfit
  have hpos : 0 < n := by omega
  have hlen : n * (((gl.bindTexture target name).pixelStorei GL_UNPACK_ALIGNMENT
      (toInt n)).pixelStorei GL_UNPACK_ROW_LENGTH (toInt (rowBytes / n))).unpackLength w =
      rowBytes := by
    unfold GLState.unpackLength
    rw [pixelStorei_rowLength_set _ _ (by rw [hs]; exact hsub)
      (by rw [hq]; exact Int.ofNat_nonneg _), hq, pixelStorei_unpackSubimage, hs, hsub,
      Int.toNat_ofNat]
    by_cases h0 : rowBytes / n = 0
    · rw [if_neg (by simp [h0])]
      exact hzero h0
    · rw [if_pos ⟨rfl, Nat.pos_of_ne_zero h0⟩]
      exact hmul
  have hal : (((gl.bindTexture target name).pixelStorei GL_UNPACK_ALIGNMENT
      (toInt n)).pixelStorei GL_UNPACK_ROW_LENGTH (toInt (rowBytes / n))).unpackAlignment = n := by
    rw [pixelStorei_rowLength_alignment, ha]
  refine ⟨?_, ?_⟩
  · funext i j
    rw [unpackPixel_eq _ _ _ _ _ _ _ n hfmt hpos hal, hlen]
    unfold paddedPixel
    apply List.map_congr_left
    intro c _
    congr 1
    omega
  · intro j
    unfold GLState.unpackRowOffset
    rw [hfmt, hal, rowStride_self n _ hpos, hlen]

/-- On a driver with `GL_UNPACK_ROW_LENGTH`, what `writePixels` leaves in the
texture store for padded rows. -/
theorem writePixels_rowLength_textures (gpu : GLGpu) (sampler : GLSampler) (tex : TextureObject)
    (rect : Rect) (pixels : Nat → Nat) (rowBytes : Nat)
    (hs : gpu.context.unpackRowLengthSupport = true)
    (htex : gpu.context.gl.textures sampler.id = some tex)
    (hbpp : gpu.context.bytesPerPixel sampler.format = 1 ∨
      gpu.context.bytesPerPixel sampler.format = 2 ∨ gpu.context.bytesPerPixel sampler.format = 4)
    (hfmt : formatComponents (gpu.context.getTextureFormat sampler.format).externalFormat =
      gpu.context.bytesPerPixel sampler.format)
    (hx : 0 ≤ rect.x) (hy : 0 ≤ rect.y) (hw : 0 ≤ rect.width) (hh : 0 ≤ rect.height)
    (hxw : rect.x + rect.width ≤ tex.width) (hyh : rect.y + rect.height ≤ tex.height)
    (hge : rect.width * (gpu.context.bytesPerPixel sampler.format : Int) ≤ (rowBytes : Int))
    (hdvd : gpu.context.bytesPerPixel sampler.format ∣ rowBytes)
    (hfit : ((rowBytes / gpu.context.bytesPerPixel sampler.format : Nat) : Int) ≤ INT_MAX) :
    (gpu.writePixels (some sampler) rect pixels rowBytes).context.gl.textures =
      Function.update gpu.context.gl.textures sampler.id
        (some (TextureObject.mk tex.width tex.height
          (overwriteTexels tex.texels rect.x rect.y rect.width rect.height
            (paddedPixel pixels (gpu.context.bytesPerPixel sampler.format) rowBytes)))) := by
  obtain ⟨hb, ht, _, _, _⟩ := writePixels_setup gpu.context.gl sampler.target sampler.id
    (gpu.context.bytesPerPixel sampler.format) hbpp
  have hfpos : 0 < formatComponents (gpu.context.getTextureFormat sampler.format).externalFormat := by
    rw [hfmt]; omega
  have hun := (rowLength_unpack gpu.context.gl sampler.target sampler.id _ rowBytes rect.width _
    pixels hs hbpp hfmt hge hdvd hfit).1
  simp only [GLGpu.writePixels, hs, if_true, GLGpu.withGL, pixelStorei_textures]
  rw [texSubImage2D_textures _ _ _ _ _ _ _ _ _ tex (by
      rw [pixelStorei_binding, pixelStorei_textures, hb, ht]; exact htex) hfpos hx hy hw hh hxw hyh]
  rw [pixelStorei_binding, pixelStorei_textures, hb, ht, hun]

/-- On a driver without `GL_UNPACK_ROW_LENGTH`, what `writePixels` leaves in the
texture store for padded rows. -/
theorem writePixels_fallback_textures (gpu : GLGpu) (sampler : GLSampler) (tex : TextureObject)
    (rect : Rect) (pixels : Nat → Nat) (rowBytes : Nat)
    (hs : gpu.context.unpackRowLengthSupport = false)
    (htex : gpu.context.gl.textures sampler.id = some tex)
    (hbpp : gpu.context.bytesPerPixel sampler.format = 1 ∨
      gpu.context.bytesPerPixel sampler.format = 2 ∨ gpu.context.bytesPerPixel sampler.format = 4)
    (hfmt : formatComponents (gpu.context.getTextureFormat sampler.format).externalFormat =
      gpu.context.bytesPerPixel sampler.format)
    (hx : 0 ≤ rect.x) (hy : 0 ≤ rect.y) (hw : 0 ≤ rect.width) (hh : 0 ≤ rect.height)
    (hxw : rect.x + rect.width ≤ tex.width) (hyh : rect.y + rect.height ≤ tex.height)
    (hge : rect.width * (gpu.context.bytesPerPixel sampler.format : Int) ≤ (rowBytes : Int))
    (hdvd : gpu.context.bytesPerPixel sampler.format ∣ rowBytes)
    (hfit : ((rowBytes / gpu.context.bytesPerPixel sampler.format : Nat) : Int) ≤ INT_MAX)
    (hheight : rect.height ≤ INT_MAX) :
    (gpu.writePixels (some sampler) rect pixels rowBytes).context.gl.textures =
      Function.update gpu.context.gl.textures sampler.id
        (some (TextureObject.mk tex.width tex.height
          (overwriteTexels tex.texels rect.x rect.y rect.width rect.height
            (paddedPixel pixels (gpu.context.bytesPerPixel sampler.format) rowBytes)))) := by
  obtain ⟨hb, ht, ha, hsub, _⟩ := writePixels_setup gpu.context.gl sampler.target sampler.id
    (gpu.context.bytesPerPixel sampler.format) hbpp
  obtain ⟨_, _, hlt, _, hwn⟩ := padded_arith _ rowBytes rect.width hbpp hge hdvd hfit
  have hpos : 0 < gpu.context.bytesPerPixel sampler.format := by omega
  have hfpos : 0 < formatComponents (gpu.context.getTextureFormat sampler.format).externalFormat := by
    rw [hfmt]; exact hpos
  have hsub1 : gpu.context.gl.unpackSubimage = false := hs
  have hlen : ((gpu.context.gl.bindTexture sampler.target sampler.id).pixelStorei
      GL_UNPACK_ALIGNMENT (toInt (gpu.context.bytesPerPixel sampler.format))).unpackLength
        rect.width = rect.width.toNat := by
    unfold GLState.unpackLength
    rw [hsub, hsub1]
    simp
  simp only [GLGpu.writePixels, hs, Bool.false_eq_true, if_false, GLGpu.withGL]
  split
  · rename_i htight
    have hexact : gpu.context.bytesPerPixel sampler.format * rect.width.toNat = rowBytes := by
      unfold mulSizeT toSizeT at htight
      have hwle : rect.width.toNat ≤ rowBytes :=
        le_trans (Nat.le_mul_of_pos_right _ hpos) hwn
      have h1 : (rect.width % 18446744073709551616).toNat = rect.width.toNat := by omega
      rw [h1, Nat.mod_eq_of_lt (by omega)] at htight
      rw [Nat.mul_comm]
      exact htight
    rw [texSubImage2D_textures _ _ _ _ _ _ _ _ _ tex (by rw [hb, ht]; exact htex) hfpos hx hy hw hh
      hxw hyh]
    rw [hb, ht]
    have key : ((gpu.context.gl.bindTexture sampler.target sampler.id).pixelStorei
        GL_UNPACK_ALIGNMENT (toInt (gpu.context.bytesPerPixel sampler.format))).unpackPixel
          rect.width (gpu.context.getTextureFormat sampler.format).externalFormat pixels 0 =
        paddedPixel pixels (gpu.context.bytesPerPixel sampler.format) rowBytes := by
      funext i j
      rw [unpackPixel_eq _ _ _ _ _ _ _ _ hfmt hpos ha, hlen, hexact]
      unfold paddedPixel
      apply List.map_congr_left
      intro c _
      congr 1
      omega
    rw [key]
  · have hrows := (rows_textures sampler.target rect.x rect.y rect.width
      (gpu.context.getTextureFormat sampler.format).externalFormat pixels rowBytes
      ((gpu.context.gl.bindTexture sampler.target sampler.id).pixelStorei GL_UNPACK_ALIGNMENT
        (toInt (gpu.context.bytesPerPixel sampler.format))) tex
      (by rw [hb, ht]; exact htex) hfpos hx hy hw hxw rect.height.toNat (by omega)).1
    rw [hrows, hb, ht, Int.toNat_of_nonneg hh]
    have key := overwriteTexels_congr tex.texels rect.x rect.y rect.width rect.height
      (fun i j => ((gpu.context.gl.bindTexture sampler.target sampler.id).pixelStorei
        GL_UNPACK_ALIGNMENT (toInt (gpu.context.bytesPerPixel sampler.format))).unpackPixel
          rect.width (gpu.context.getTextureFormat sampler.format).externalFormat pixels
          (mulSizeT (toSizeT (j : Int)) rowBytes) i 0)
      (paddedPixel pixels (gpu.context.bytesPerPixel sampler.format) rowBytes) (by
        intro i j _ hj
        simp only
        rw [unpackPixel_eq _ _ _ _ _ _ _ _ hfmt hpos ha, hlen,
          mulSizeT_row j rowBytes (by omega) hlt]
        unfold paddedPixel
        apply List.map_congr_left
        intro c _
        congr 1
        omega)
    rw [key]

/-- C10, as stated, fails: with one byte per pixel, a rectangle 1 wide and 2
high and `rowBytes = 2^32 + 1`, `rowBytes` is at least the packed row size and
divisible by the pixel size, yet the row-length path reads row 1 at offset 1
while the per-row path reads it at offset `2^32 + 1`; texel `(0, 1)` ends as
the byte at offset 1 on the former and as the byte at offset `2^32 + 1` on the
latter. -/
theorem writePixels_paths_differ_beyond_int :
    (1 : Int) * (1 : Nat) ≤ (4294967297 : Nat) ∧ 1 ∣ 4294967297 ∧
    ((byteGpu true).rowLengthTransferState ⟨1, GL_TEXTURE_2D, 0⟩ 4294967297).unpackRowOffset
        1 GL_RED 1 = 1 ∧
    mulSizeT (toSizeT ((1 : Nat) : Int)) 4294967297 = 4294967297 ∧
    (((byteGpu true).writePixels (some ⟨1, GL_TEXTURE_2D, 0⟩) ⟨0, 0, 1, 2⟩ markedBuffer
        4294967297).context.gl.textures 1).map (fun t => t.texels 0 1) = some [0] ∧
    (((byteGpu false).writePixels (some ⟨1, GL_TEXTURE_2D, 0⟩) ⟨0, 0, 1, 2⟩ markedBuffer
        4294967297).context.gl.textures 1).map (fun t => t.texels 0 1) = some [9] := by
  refine ⟨by decide, by decide, by decide, by decide, by decide, by decide⟩

/-- C10, amended: for padded rows the two strategies of `writePixels` agree up
to integer division and the range of `int`.  For every rectangle and every
`rowBytes >= rect.width * bytesPerPixel` that is divisible by `bytesPerPixel`
and whose quotient `rowBytes / bytesPerPixel` is at most `INT_MAX`: the offset
at which the row-length path reads row `r` is `r * rowBytes`, which is the
offset the per-row loop computes for row `r`, for every `r < rect.height` (when the rows are
padded, the loop's call for row `r` is recorded with that offset), and both
read pixel `i` of that row at `r * rowBytes + i * bytesPerPixel`; and
for a rectangle inside the bounds of the sampler's texture both paths leave
texel `(rect.x + i, rect.y + j)` equal to pixel `i` of the row starting at
`j * rowBytes`, leave every other texel as it was, and so end with the same
texture store.  For a `rowBytes` not divisible by `bytesPerPixel` the offsets
can differ: with 4 bytes per pixel and `rowBytes = 6`, row 1 is read at offset
4 on the row-length path and at offset 6 on the per-row path.  The byte size of
the format is one of 1, 2, 4 and is the size of a pixel of its external format;
`rect.height` is an `int`. -/
theorem writePixels_padded_rows (gpu : GLGpu) (sampler : GLSampler) (rect : Rect)
    (pixels : Nat → Nat) (rowBytes : Nat)
    (hbpp : gpu.context.bytesPerPixel sampler.format = 1 ∨
      gpu.context.bytesPerPixel sampler.format = 2 ∨ gpu.context.bytesPerPixel sampler.format = 4)
    (hfmt : formatComponents (gpu.context.getTextureFormat sampler.format).externalFormat =
      gpu.context.bytesPerPixel sampler.format)
    (hge : rect.width * (gpu.context.bytesPerPixel sampler.format : Int) ≤ (rowBytes : Int))
    (hdvd : gpu.context.bytesPerPixel sampler.format ∣ rowBytes)
    (hfit : ((rowBytes / gpu.context.bytesPerPixel sampler.format : Nat) : Int) ≤ INT_MAX)
    (hheight : rect.height ≤ INT_MAX) :
    (∀ r : Nat, (r : Int) < rect.height →
      ((gpu.withUnpackSubimage true).rowLengthTransferState sampler rowBytes).unpackRowOffset
          rect.width (gpu.context.getTextureFormat sampler.format).externalFormat r =
        r * rowBytes ∧
      mulSizeT (toSizeT (r : Int)) rowBytes = r * rowBytes ∧
      (mulSizeT (toSizeT rect.width) (gpu.context.bytesPerPixel sampler.format) ≠ rowBytes →
        GLCall.texSubImage2D sampler.target 0 rect.x (rect.y + (r : Int)) rect.width 1
            (gpu.context.getTextureFormat sampler.format).externalFormat GL_UNSIGNED_BYTE
            (r * rowBytes) ∈
          ((gpu.withUnpackSubimage false).writePixels (some sampler) rect pixels
            rowBytes).context.gl.calls) ∧
      ∀ i : Nat,
        ((gpu.withUnpackSubimage true).rowLengthTransferState sampler rowBytes).unpackPixel
            rect.width (gpu.context.getTextureFormat sampler.format).externalFormat pixels 0 i r =
          paddedPixel pixels (gpu.context.bytesPerPixel sampler.format) rowBytes i r ∧
        ((gpu.withUnpackSubimage false).fallbackTransferState sampler).unpackPixel
            rect.width (gpu.context.getTextureFormat sampler.format).externalFormat pixels
            (mulSizeT (toSizeT (r : Int)) rowBytes) i 0 =
          paddedPixel pixels (gpu.context.bytesPerPixel sampler.format) rowBytes i r) ∧
    (∀ tex : TextureObject, gpu.context.gl.textures sampler.id = some tex →
      0 ≤ rect.x → 0 ≤ rect.y → 0 ≤ rect.width → 0 ≤ rect.height →
      rect.x + rect.width ≤ tex.width → rect.y + rect.height ≤ tex.height →
      (∀ b : Bool, ∃ written,
        ((gpu.withUnpackSubimage b).writePixels (some sampler) rect pixels
          rowBytes).context.gl.textures sampler.id = some written ∧
        written.width = tex.width ∧ written.height = tex.height ∧
        (∀ i j : Nat, (i : Int) < rect.width → (j : Int) < rect.height →
          written.texels (rect.x + i) (rect.y + j) =
            paddedPixel pixels (gpu.context.bytesPerPixel sampler.format) rowBytes i j) ∧
        (∀ u v : Int,
          ¬ (rect.x ≤ u ∧ u < rect.x + rect.width ∧ rect.y ≤ v ∧ v < rect.y + rect.height) →
          written.texels u v = tex.texels u v)) ∧
      ((gpu.withUnpackSubimage true).writePixels (some sampler) rect pixels
          rowBytes).context.gl.textures =
        ((gpu.withUnpackSubimage false).writePixels (some sampler) rect pixels
          rowBytes).context.gl.textures) ∧
    (¬ (4 ∣ 6) ∧
      ((scenarioGpu true).rowLengthTransferState ⟨1, GL_TEXTURE_2D, 0⟩ 6).unpackRowOffset
        1 GL_RGBA 1 = 4 ∧
      mulSizeT (toSizeT ((1 : Nat) : Int)) 6 = 6) := by
  refine ⟨?_, ?_, by decide, by decide, by decide⟩
  · intro r hr
    have hoff := mulSizeT_row r rowBytes (by omega)
      (padded_arith _ rowBytes rect.width hbpp hge hdvd hfit).2.2.1
    have hrl := rowLength_unpack (gpu.withUnpackSubimage true).context.gl sampler.target
      sampler.id _ rowBytes rect.width _ pixels rfl hbpp hfmt hge hdvd hfit
    refine ⟨hrl.2 r, hoff, ?_, fun i => ⟨?_, ?_⟩⟩
    · intro hpad
      have hcalls : ((gpu.withUnpackSubimage false).writePixels (some sampler) rect pixels
          rowBytes).context.gl.calls =
          ((gpu.withUnpackSubimage false).fallbackTransferState sampler).calls ++
            (List.range rect.height.toNat).map (fun (row : Nat) =>
              GLCall.texSubImage2D sampler.target 0 rect.x (rect.y + (row : Int)) rect.width 1
                (gpu.context.getTextureFormat sampler.format).externalFormat GL_UNSIGNED_BYTE
                (mulSizeT (toSizeT (row : Int)) rowBytes)) := by
        have hs : (gpu.withUnpackSubimage false).context.unpackRowLengthSupport = false := rfl
        have hpad1 : mulSizeT (toSizeT rect.width)
            ((gpu.withUnpackSubimage false).context.bytesPerPixel sampler.format) ≠ rowBytes :=
          hpad
        simp only [GLGpu.writePixels, hs, Bool.false_eq_true, if_false, hpad1, GLGpu.withGL]
        exact (rows_frame _ _ _ _ _ _ _ _ _).1
      rw [hcalls]
      apply List.mem_append_right
      apply List.mem_map.mpr
      refine ⟨r, ?_, ?_⟩
      · rw [List.mem_range]
        omega
      · rw [hoff]
    · rw [show (gpu.withUnpackSubimage true).rowLengthTransferState sampler rowBytes =
        (((gpu.withUnpackSubimage true).context.gl.bindTexture sampler.target
          sampler.id).pixelStorei GL_UNPACK_ALIGNMENT
            (toInt (gpu.context.bytesPerPixel sampler.format))).pixelStorei GL_UNPACK_ROW_LENGTH
              (toInt (rowBytes / gpu.context.bytesPerPixel sampler.format)) from rfl, hrl.1]
    · obtain ⟨_, _, ha, hsub, _⟩ := writePixels_setup (gpu.withUnpackSubimage false).context.gl
        sampler.target sampler.id (gpu.context.bytesPerPixel sampler.format) hbpp
      rw [show (gpu.withUnpackSubimage false).fallbackTransferState sampler =
        ((gpu.withUnpackSubimage false).context.gl.bindTexture sampler.target
          sampler.id).pixelStorei GL_UNPACK_ALIGNMENT
            (toInt (gpu.context.bytesPerPixel sampler.format)) from rfl,
        unpackPixel_eq _ _ _ _ _ _ _ _ hfmt (by omega) ha, hoff]
      unfold paddedPixel
      apply List.map_congr_left
      intro c _
      congr 1
      omega
  · intro tex htex hx hy hw hh hxw hyh
    have hall : ∀ b : Bool,
        ((gpu.withUnpackSubimage b).writePixels (some sampler) rect pixels
          rowBytes).context.gl.textures =
        Function.update gpu.context.gl.textures sampler.id
          (some (TextureObject.mk tex.width tex.height
            (overwriteTexels tex.texels rect.x rect.y rect.width rect.height
              (paddedPixel pixels (gpu.context.bytesPerPixel sampler.format) rowBytes)))) := by
      intro b
      cases b with
      | true =>
        exact writePixels_rowLength_textures (gpu.withUnpackSubimage true) sampler tex rect pixels
          rowBytes rfl htex hbpp hfmt hx hy hw hh hxw hyh hge hdvd hfit
      | false =>
        exact writePixels_fallback_textures (gpu.withUnpackSubimage false) sampler tex rect pixels
          rowBytes rfl htex hbpp hfmt hx hy hw hh hxw hyh hge hdvd hfit hheight
    refine ⟨fun b => ⟨TextureObject.mk tex.width tex.height
        (overwriteTexels tex.texels rect.x rect.y rect.width rect.height
          (paddedPixel pixels (gpu.context.bytesPerPixel sampler.format) rowBytes)),
        by rw [hall b, Function.update_same], rfl, rfl, ?_, ?_⟩,
      by rw [hall true, hall false]⟩
    · intro i j hi hj
      simp only [overwriteTexels]
      rw [if_pos (by omega)]
      have h1 : (rect.x + (i : Int) - rect.x).toNat = i := by omega
      have h2 : (rect.y + (j : Int) - rect.y).toNat = j := by omega
      rw [h1, h2]
    · intro u v hout
      simp only [overwriteTexels]
      rw [if_neg hout]

/-- The amended C10 on the scenario: the 64 by 64 four-byte texture, a 10 by
10 rectangle at (5, 5), rows 48 bytes apart.  Row 3 is read at offset 144 on
the row-length path, and both paths end with the same texture store. -/
theorem writePixels_padded_rows_witness :
    (((scenarioGpu true).withUnpackSubimage true).rowLengthTransferState ⟨1, GL_TEXTURE_2D, 0⟩
        48).unpackRowOffset 10 GL_RGBA 3 = 3 * 48 ∧
    (((scenarioGpu true).withUnpackSubimage true).writePixels (some ⟨1, GL_TEXTURE_2D, 0⟩)
        ⟨5, 5, 10, 10⟩ solidRed 48).context.gl.textures =
      (((scenarioGpu true).withUnpackSubimage false).writePixels (some ⟨1, GL_TEXTURE_2D, 0⟩)
        ⟨5, 5, 10, 10⟩ solidRed 48).context.gl.textures :=
  ⟨((writePixels_padded_rows (scenarioGpu true) ⟨1, GL_TEXTURE_2D, 0⟩ ⟨5, 5, 10, 10⟩ solidRed 48
      (Or.inr (Or.inr rfl)) (by decide) (by decide) (by decide) (by decide) (by decide)).1 3
      (by decide)).1,
   ((writePixels_padded_rows (scenarioGpu true) ⟨1, GL_TEXTURE_2D, 0⟩ ⟨5, 5, 10, 10⟩ solidRed 48
      (Or.inr (Or.inr rfl)) (by decide) (by decide) (by decide) (by decide) (by decide)).2.1
      { width := 64, height := 64, texels := fun _ _ => [] }
      (by simp [scenarioGpu, GLGpu.createTexture, GLGpu.initial, GLState.initial, GLGpu.withGL,
        GLState.genTextures, GLState.bindTexture, GLState.texParameteri, GLState.texImage2D,
        GLState.record])
      (by decide) (by decide) (by decide) (by decide) (by decide) (by decide)).2⟩

end tgfx
